import Mathlib

/-!
Verification development for the Lighthouse sync engine
(`beacon_node/network/src/sync/`): a shallow embedding of the request
multiplexer (`network_context.rs`), the sync manager orchestration
(`manager.rs`) and the range sync type selection (`sync_type.rs`),
with theorems settling the specified properties.

Helper modules of the sync crate that are not part of the sources at hand
(`network_context/requests.rs`, `block_sidecar_coupling.rs`,
`network_context/custody.rs`, `block_lookups`, and the
`lighthouse_network` `SyncState` type) are modelled from the spec; each
such definition carries a doc comment starting with `Modelled from the
spec:`.
-/

namespace Sync

/-! ## Basic identifier types (lighthouse_network/src/service/api_types.rs) -/

/-- `pub type Id = u32;` — modelled as `Nat` holding values below `2 ^ 32`;
the request-id counter increments with the wrapping semantics of a release
build `u32` (`% 2 ^ 32`). -/
abbrev Id := Nat

/-- Peer identifier, abstracted to `Nat`. -/
abbrev PeerId := Nat

/-- Block root hash, abstracted to `Nat`. -/
abbrev Hash256 := Nat

abbrev Epoch := Nat

abbrev Slot := Nat

structure SingleLookupReqId where
  lookup_id : Id
  req_id : Id
deriving DecidableEq, Repr

/-- `RangeRequestId`: range sync chain or backfill batch. -/
inductive RangeRequestId where
  | RangeSync (chain_id : Id) (batch_id : Epoch)
  | BackfillSync (batch_id : Epoch)
deriving DecidableEq, Repr

structure ComponentsByRangeRequestId where
  id : Id
  requester : RangeRequestId
deriving DecidableEq, Repr

structure BlocksByRangeRequestId where
  id : Id
  parent_request_id : ComponentsByRangeRequestId
deriving DecidableEq, Repr

structure BlobsByRangeRequestId where
  id : Id
  parent_request_id : ComponentsByRangeRequestId
deriving DecidableEq, Repr

structure DataColumnsByRangeRequestId where
  id : Id
  parent_request_id : ComponentsByRangeRequestId
deriving DecidableEq, Repr

inductive SamplingRequester where
  | ImportedBlock (block_root : Hash256)
deriving DecidableEq, Repr

structure SamplingRequestId where
  id : Nat
deriving DecidableEq, Repr

structure SamplingId where
  id : SamplingRequester
  sampling_request_id : SamplingRequestId
deriving DecidableEq, Repr

structure CustodyRequester where
  id : SingleLookupReqId
deriving DecidableEq, Repr

structure CustodyId where
  requester : CustodyRequester
deriving DecidableEq, Repr

inductive DataColumnsByRootRequester where
  | Sampling (id : SamplingId)
  | Custody (id : CustodyId)
deriving DecidableEq, Repr

structure DataColumnsByRootRequestId where
  id : Id
  requester : DataColumnsByRootRequester
deriving DecidableEq, Repr

/-- `SyncRequestId`: id of rpc requests sent by sync to the network. -/
inductive SyncRequestId where
  | SingleBlock (id : SingleLookupReqId)
  | SingleBlob (id : SingleLookupReqId)
  | DataColumnsByRoot (id : DataColumnsByRootRequestId)
  | BlocksByRange (id : BlocksByRangeRequestId)
  | BlobsByRange (id : BlobsByRangeRequestId)
  | DataColumnsByRange (id : DataColumnsByRangeRequestId)
deriving DecidableEq, Repr

/-! ## Response payload types, abstracted to the fields the sync logic reads -/

/-- A signed beacon block: the coupler reads its slot and how many blobs the
block commits to. -/
structure SignedBeaconBlock where
  slot : Slot
  num_expected_blobs : Nat
deriving DecidableEq, Repr

structure BlobSidecar where
  slot : Slot
  index : Nat
deriving DecidableEq, Repr

structure DataColumnSidecar where
  slot : Slot
  index : Nat
deriving DecidableEq, Repr

/-! ## Errors (network_context.rs and rpc) -/

inductive RPCError where
  | Disconnected
  | Other (code : Nat)
deriving DecidableEq, Repr

inductive LookupVerifyError where
  | NotEnoughResponsesReturned (actual : Nat)
  | TooManyResponses
  | UnrequestedIndex (index : Nat)
  | InternalError (msg : String)
deriving DecidableEq, Repr

/-- `custody::Error`, abstracted (custody.rs is not among the sources). -/
inductive CustodyRequestError where
  | NoPeers (column_index : Nat)
  | Other (code : Nat)
deriving DecidableEq, Repr

inductive RpcResponseError where
  | RpcError (e : RPCError)
  | VerifyError (e : LookupVerifyError)
  | CustodyRequestError (e : CustodyRequestError)
  | BlockComponentCouplingError (msg : String)
deriving DecidableEq, Repr

inductive RpcRequestSendError where
  | NetworkSendError
  | NoCustodyPeers
  | CustodyRequestError (e : CustodyRequestError)
  | SlotClockError
deriving DecidableEq, Repr

inductive SendErrorProcessor where
  | SendError
  | ProcessorNotAvailable
deriving DecidableEq, Repr

inductive PeerAction where
  | Fatal
  | LowToleranceError
  | MidToleranceError
  | HighToleranceError
deriving DecidableEq, Repr

/-- `RpcEvent<T>`: a streamed chunk, end of stream, or an RPC error. -/
inductive RpcEvent (α : Type) where
  | StreamTermination
  | Response (item : α) (seen_timestamp : Nat)
  | RPCError (e : RPCError)
deriving DecidableEq, Repr

inductive EngineState where
  | Online
  | Offline
deriving DecidableEq, Repr

/-- `LookupRequestResult` of network_context.rs. -/
inductive LookupRequestResult where
  | RequestSent (req_id : Id)
  | NoRequestNeeded (reason : String)
  | Pending (reason : String)
deriving DecidableEq, Repr

/-! ## Association-list maps (shallow embedding of the `FnvHashMap`s) -/

/-- Lookup in an association list (first entry wins, as in a hash map with
unique keys). -/
def alist_lookup {K V : Type} [DecidableEq K] : List (K × V) → K → Option V
  | [], _ => none
  | (k', v) :: rest, k => if k = k' then some v else alist_lookup rest k

/-- Remove every entry with the given key. -/
def alist_remove {K V : Type} [DecidableEq K] (m : List (K × V)) (k : K) :
    List (K × V) :=
  m.filter (fun p => p.1 ≠ k)

/-- Insert, replacing any existing entry with the same key. -/
def alist_insert {K V : Type} [DecidableEq K] (m : List (K × V)) (k : K)
    (v : V) : List (K × V) :=
  (k, v) :: alist_remove m k

/-! ## C6: RangeSyncType::new (range_sync/sync_type.rs) -/

structure SyncInfo where
  head_slot : Slot
  head_root : Hash256
  finalized_epoch : Epoch
  finalized_root : Hash256
deriving DecidableEq, Repr

inductive RangeSyncType where
  | Finalized
  | Head
deriving DecidableEq, Repr

/-- `RangeSyncType::new`: finalized chain sync iff the remote's finalized
epoch is greater than ours and we have not seen the finalized hash before.
The fork-choice query `chain.block_is_known_to_fork_choice` is passed in as a
function. -/
def RangeSyncType.new (block_is_known_to_fork_choice : Hash256 → Bool)
    (local_info remote_info : SyncInfo) : RangeSyncType :=
  if remote_info.finalized_epoch > local_info.finalized_epoch
      && !(block_is_known_to_fork_choice remote_info.finalized_root) then
    RangeSyncType.Finalized
  else
    RangeSyncType.Head

/-! ## Active request multiplexer (network_context/requests.rs) -/

/-- Modelled from the spec: the per-request state of the request multiplexer
(`network_context/requests.rs`, not among the sources): target peer,
accumulated response items, and the expected-item-count policy (strict
"exactly N" vs. best-effort). -/
structure ActiveRequest (α : Type) where
  peer_id : PeerId
  expect_max_responses : Bool
  max_items : Nat
  items : List α
deriving DecidableEq, Repr

/-- The map of active requests of one category, keyed by request id. -/
abbrev ActiveRequests (K α : Type) := List (K × ActiveRequest α)

/-- Modelled from the spec: `ActiveRequests::on_response`
(`network_context/requests.rs`, not among the sources). Responses accumulate
until a terminator event; at stream termination a request with the strict
expected-count policy that received fewer items than promised fails with
`NotEnoughResponsesReturned`; an error/disconnect is an implicit termination;
an event for an unknown id produces no result and no change. Every resolved
request is removed. -/
def ActiveRequests.on_response {K α : Type} [DecidableEq K]
    (m : ActiveRequests K α) (id : K) (ev : RpcEvent α) :
    Option (Except RpcResponseError (List α)) × ActiveRequests K α :=
  match alist_lookup m id with
  | none => (none, m)
  | some req =>
    match ev with
    | .Response item _ =>
        (none, alist_insert m id { req with items := req.items ++ [item] })
    | .StreamTermination =>
        if req.expect_max_responses && req.items.length < req.max_items then
          (some (.error (.VerifyError
              (.NotEnoughResponsesReturned req.items.length))),
            alist_remove m id)
        else
          (some (.ok req.items), alist_remove m id)
    | .RPCError e => (some (.error (.RpcError e)), alist_remove m id)

/-- Modelled from the spec: `ActiveRequests::active_requests_of_peer` returns
all requests belonging to that peer. -/
def ActiveRequests.active_requests_of_peer {K α : Type}
    (m : ActiveRequests K α) (peer : PeerId) : List K :=
  (m.filter (fun p => p.2.peer_id = peer)).map Prod.fst

/-- A peer group: peers keyed by which indexed section of a block component
they served. -/
abbrev PeerGroup := List (PeerId × List Nat)

/-! ## Components-by-range coupler (block_sidecar_coupling.rs) -/

/-- Modelled from the spec: `RangeBlockComponentsRequest`
(`block_sidecar_coupling.rs`, not among the sources). Couples a
blocks-by-range request with the expected blob / data-column streams of the
same slot range, buffering partial arrivals until all expected component
streams have terminated. Constructed by `block_components_by_range_request`
with the flags visible there: whether blobs are expected, which column
indexes are expected, and how many column sub-requests were issued. -/
structure RangeBlockComponentsRequest where
  blocks : Option (List SignedBeaconBlock)
  expects_blobs : Bool
  blobs : Option (List BlobSidecar)
  expects_columns : Option (List Nat)
  num_custody_column_requests : Option Nat
  custody_columns : List DataColumnSidecar
  custody_columns_streams_finished : Nat
deriving DecidableEq, Repr

/-- Modelled from the spec: constructor mirroring
`RangeBlockComponentsRequest::new(expected_blobs, expects_columns,
num_column_requests)`. -/
def RangeBlockComponentsRequest.new (expected_blobs : Bool)
    (expects_columns : Option (List Nat))
    (num_custody_column_requests : Option Nat) : RangeBlockComponentsRequest :=
  { blocks := none
    expects_blobs := expected_blobs
    blobs := none
    expects_columns := expects_columns
    num_custody_column_requests := num_custody_column_requests
    custody_columns := []
    custody_columns_streams_finished := 0 }

/-- Modelled from the spec: record the finished blocks-by-range sub-stream. -/
def RangeBlockComponentsRequest.add_blocks (r : RangeBlockComponentsRequest)
    (blocks : List SignedBeaconBlock) : RangeBlockComponentsRequest :=
  { r with blocks := some blocks }

/-- Modelled from the spec: record the finished blobs-by-range sub-stream. -/
def RangeBlockComponentsRequest.add_blobs (r : RangeBlockComponentsRequest)
    (blobs : List BlobSidecar) : RangeBlockComponentsRequest :=
  { r with blobs := some blobs }

/-- Modelled from the spec: record one finished columns-by-range sub-stream
(several may be expected, one per custodial peer). -/
def RangeBlockComponentsRequest.add_custody_columns
    (r : RangeBlockComponentsRequest) (columns : List DataColumnSidecar) :
    RangeBlockComponentsRequest :=
  { r with
    custody_columns := r.custody_columns ++ columns
    custody_columns_streams_finished := r.custody_columns_streams_finished + 1 }

/-- Modelled from the spec: `is_finished()` once all expected component
streams have terminated. -/
def RangeBlockComponentsRequest.is_finished
    (r : RangeBlockComponentsRequest) : Bool :=
  r.blocks.isSome &&
  (!r.expects_blobs || r.blobs.isSome) &&
  (match r.num_custody_column_requests with
   | none => true
   | some n => n ≤ r.custody_columns_streams_finished)

/-- A fully-coupled per-slot block bundle. -/
structure RpcBlock where
  block : SignedBeaconBlock
  blobs : List BlobSidecar
  custody_columns : List DataColumnSidecar
deriving DecidableEq, Repr

/-- Modelled from the spec: `into_responses()` zips blocks with their
per-slot blobs/columns by matching slot and emits an ordered sequence of
fully-assembled block bundles, failing with a coupling error if component
counts/slots cannot be reconciled. -/
def RangeBlockComponentsRequest.into_responses
    (r : RangeBlockComponentsRequest) : Except String (List RpcBlock) :=
  match r.blocks with
  | none => Except.error "blocks stream has not finished"
  | some blocks =>
    blocks.mapM (fun b =>
      let slot_blobs := (r.blobs.getD []).filter (fun bl => bl.slot == b.slot)
      let slot_columns := r.custody_columns.filter (fun c => c.slot == b.slot)
      if r.expects_blobs && (b.num_expected_blobs != slot_blobs.length) then
        Except.error "block claims blobs that were not received for its slot"
      else if r.expects_columns.isSome && (b.num_expected_blobs != 0)
          && slot_columns.isEmpty then
        Except.error "block claims data but no columns were received for its slot"
      else
        Except.ok { block := b, blobs := slot_blobs,
                    custody_columns := slot_columns })

/-! ## Custody requests (network_context/custody.rs) -/

/-- Modelled from the spec: the internal state of an `ActiveCustodyRequest`
(`network_context/custody.rs`, not among the sources), abstracted: the
per-shard download state machines are summarised by an opaque numeric state.
The request-progress functions (`continue_requests`,
`on_data_column_downloaded`) are passed to the context operations as
function parameters. -/
structure ActiveCustodyRequest where
  block_root : Hash256
  state : Nat
deriving DecidableEq, Repr

/-- `CustodyRequestResult`: internal format of `ActiveCustodyRequest`
results — `Ok(Some)` terminal success, `Ok(None)` still in progress,
`Err` terminal failure. -/
abbrev CustodyRequestResult :=
  Except CustodyRequestError (Option (List DataColumnSidecar × PeerGroup))

/-- `CustodyByRootResult` of network_context.rs. -/
abbrev CustodyByRootResult :=
  Except RpcResponseError (List DataColumnSidecar × PeerGroup)

/-! ## Outbound effects of the sync network context -/

/-- Messages the context sends over the network channel, recorded in order. -/
inductive OutMessage where
  | SendRequest (peer : PeerId) (request_id : SyncRequestId)
  | SubscribeCoreTopics
  | ReportPeer (peer : PeerId) (action : PeerAction) (msg : String)
deriving DecidableEq, Repr

/-! ## SyncNetworkContext (network_context.rs) -/

/-- The sync network context: the global request-id counter, the six active
request maps, the custody and components-by-range meta-request maps, the
execution engine state, and the outbound effects (network messages, blocks
forwarded to the beacon processor). -/
structure SyncNetworkContext where
  request_id : Id
  blocks_by_root_requests : ActiveRequests SingleLookupReqId SignedBeaconBlock
  blobs_by_root_requests : ActiveRequests SingleLookupReqId BlobSidecar
  data_columns_by_root_requests :
    ActiveRequests DataColumnsByRootRequestId DataColumnSidecar
  blocks_by_range_requests :
    ActiveRequests BlocksByRangeRequestId SignedBeaconBlock
  blobs_by_range_requests : ActiveRequests BlobsByRangeRequestId BlobSidecar
  data_columns_by_range_requests :
    ActiveRequests DataColumnsByRangeRequestId DataColumnSidecar
  custody_by_root_requests : List (CustodyRequester × ActiveCustodyRequest)
  components_by_range_requests :
    List (ComponentsByRangeRequestId × RangeBlockComponentsRequest)
  execution_engine_state : EngineState
  out_messages : List OutMessage
  forwarded_blocks : List Hash256
deriving DecidableEq, Repr

namespace SyncNetworkContext

/-- `SyncNetworkContext::new`: empty maps, counter starts at 1, engine
assumed online. -/
def new : SyncNetworkContext :=
  { request_id := 1
    blocks_by_root_requests := []
    blobs_by_root_requests := []
    data_columns_by_root_requests := []
    blocks_by_range_requests := []
    blobs_by_range_requests := []
    data_columns_by_range_requests := []
    custody_by_root_requests := []
    components_by_range_requests := []
    execution_engine_state := EngineState.Online
    out_messages := []
    forwarded_blocks := [] }

/-- `next_id`: return the current counter value and increment it. The
counter is a `u32` (`self.request_id += 1`), so the increment wraps at
`2 ^ 32` in a release build. -/
def next_id (s : SyncNetworkContext) : Id × SyncNetworkContext :=
  (s.request_id, { s with request_id := (s.request_id + 1) % 2 ^ 32 })

/-- `send_network_msg` for a `SendRequest` message. -/
def send_request (s : SyncNetworkContext) (peer : PeerId)
    (request_id : SyncRequestId) : SyncNetworkContext :=
  { s with out_messages := s.out_messages ++ [OutMessage.SendRequest peer request_id] }

/-- `report_peer`: report peer behaviour to the scoring algorithm. -/
def report_peer (s : SyncNetworkContext) (peer : PeerId) (action : PeerAction)
    (msg : String) : SyncNetworkContext :=
  { s with out_messages := s.out_messages ++ [OutMessage.ReportPeer peer action msg] }

/-- `subscribe_core_topics`: send the subscribe-to-core-topics message. -/
def subscribe_core_topics (s : SyncNetworkContext) : SyncNetworkContext :=
  { s with out_messages := s.out_messages ++ [OutMessage.SubscribeCoreTopics] }

/-- `is_execution_engine_online`. -/
def is_execution_engine_online (s : SyncNetworkContext) : Bool :=
  match s.execution_engine_state with
  | EngineState.Online => true
  | EngineState.Offline => false

/-- `update_execution_engine_state`. -/
def update_execution_engine_state (s : SyncNetworkContext)
    (engine_state : EngineState) : SyncNetworkContext :=
  { s with execution_engine_state := engine_state }

/-- `beacon_processor_if_enabled`: the processor handle is available only
while the execution engine is online. -/
def beacon_processor_if_enabled (s : SyncNetworkContext) : Option Unit :=
  if s.is_execution_engine_online then some () else none

/-- `send_block_for_processing`: forward a downloaded block to the beacon
processor; fails with `ProcessorNotAvailable` when the engine is offline. -/
def send_block_for_processing (s : SyncNetworkContext) (block_root : Hash256) :
    Except SendErrorProcessor Unit × SyncNetworkContext :=
  match s.beacon_processor_if_enabled with
  | none => (Except.error SendErrorProcessor.ProcessorNotAvailable, s)
  | some _ =>
    (Except.ok (),
      { s with forwarded_blocks := s.forwarded_blocks ++ [block_root] })

/-- `peer_disconnected`: the ids of all the requests made to the given
peer, over all six active request maps. -/
def peer_disconnected (s : SyncNetworkContext) (peer_id : PeerId) :
    List SyncRequestId :=
  (ActiveRequests.active_requests_of_peer s.blocks_by_root_requests
      peer_id).map SyncRequestId.SingleBlock
  ++ (ActiveRequests.active_requests_of_peer s.blobs_by_root_requests
      peer_id).map SyncRequestId.SingleBlob
  ++ (ActiveRequests.active_requests_of_peer s.data_columns_by_root_requests
      peer_id).map SyncRequestId.DataColumnsByRoot
  ++ (ActiveRequests.active_requests_of_peer s.blocks_by_range_requests
      peer_id).map SyncRequestId.BlocksByRange
  ++ (ActiveRequests.active_requests_of_peer s.blobs_by_range_requests
      peer_id).map SyncRequestId.BlobsByRange
  ++ (ActiveRequests.active_requests_of_peer s.data_columns_by_range_requests
      peer_id).map SyncRequestId.DataColumnsByRange

end SyncNetworkContext

deriving instance DecidableEq for Except

/-- `RangeBlockComponent`: a finished block / blob / custody-column
sub-stream result for a components-by-range request. -/
inductive RangeBlockComponent where
  | Block (resp : Except RpcResponseError (List SignedBeaconBlock))
  | Blob (resp : Except RpcResponseError (List BlobSidecar))
  | CustodyColumns (resp : Except RpcResponseError (List DataColumnSidecar))
deriving DecidableEq, Repr

/-- `BlockProcessStatus` of the beacon chain, queried by
`block_lookup_request`. -/
inductive BlockProcessStatus where
  | Unknown
  | NotValidated
  | ExecutionValidated
deriving DecidableEq, Repr

/-- `ByRangeRequestType` of range_sync. -/
inductive ByRangeRequestType where
  | BlocksAndColumns
  | BlocksAndBlobs
  | Blocks
deriving DecidableEq, Repr

namespace SyncNetworkContext

/-- `report_rpc_response_errors`: report the serving peer with a
low-tolerance penalty on a verify error. -/
def report_rpc_response_errors {R : Type} (s : SyncNetworkContext)
    (resp : Option (Except RpcResponseError R)) (peer_id : PeerId) :
    Option (Except RpcResponseError R) × SyncNetworkContext :=
  match resp with
  | some (Except.error (RpcResponseError.VerifyError _)) =>
    (resp, s.report_peer peer_id PeerAction.LowToleranceError "lookup_verify_error")
  | _ => (resp, s)

/-- `on_single_block_response`: resolve a blocks-by-root request chunk;
enforce that exactly one block is returned, reporting the peer on a verify
error. -/
def on_single_block_response (s : SyncNetworkContext) (id : SingleLookupReqId)
    (peer_id : PeerId) (rpc_event : RpcEvent SignedBeaconBlock) :
    Option (Except RpcResponseError SignedBeaconBlock) × SyncNetworkContext :=
  let rm := ActiveRequests.on_response s.blocks_by_root_requests id rpc_event
  let s1 := { s with blocks_by_root_requests := rm.2 }
  let response : Option (Except RpcResponseError SignedBeaconBlock) :=
    rm.1.map (fun res => res.bind (fun blocks =>
      match blocks.getLast? with
      | some block => Except.ok block
      | none => Except.error (RpcResponseError.VerifyError
          (LookupVerifyError.NotEnoughResponsesReturned 0))))
  match response with
  | some (Except.error (RpcResponseError.VerifyError _)) =>
    (response, s1.report_peer peer_id PeerAction.LowToleranceError "lookup_verify_error")
  | _ => (response, s1)

/-- `to_fixed_blob_sidecar_list`: place each blob at its index in a fixed
list, failing on an out-of-range index. -/
def to_fixed_blob_sidecar_list (blobs : List BlobSidecar) (max_len : Nat) :
    Except LookupVerifyError (List (Option BlobSidecar)) :=
  blobs.foldlM (fun acc blob =>
    if blob.index < max_len then
      Except.ok (acc.set blob.index (some blob))
    else
      Except.error (LookupVerifyError.UnrequestedIndex blob.index))
    (List.replicate max_len none)

/-- `on_single_blob_response`: resolve a blobs-by-root request chunk,
converting to the fixed blob list; `max_blobs_per_block` abstracts the chain
spec lookup. -/
def on_single_blob_response (max_blobs_per_block : Nat)
    (s : SyncNetworkContext) (id : SingleLookupReqId) (peer_id : PeerId)
    (rpc_event : RpcEvent BlobSidecar) :
    Option (Except RpcResponseError (List (Option BlobSidecar))) ×
      SyncNetworkContext :=
  let rm := ActiveRequests.on_response s.blobs_by_root_requests id rpc_event
  let s1 := { s with blobs_by_root_requests := rm.2 }
  let response : Option (Except RpcResponseError (List (Option BlobSidecar))) :=
    rm.1.map (fun res => res.bind (fun blobs =>
      if blobs.isEmpty then
        Except.error (RpcResponseError.VerifyError
          (LookupVerifyError.InternalError
            "Requested blobs for a block that has no blobs"))
      else
        match to_fixed_blob_sidecar_list blobs max_blobs_per_block with
        | Except.ok fixed => Except.ok fixed
        | Except.error e => Except.error (RpcResponseError.VerifyError e)))
  match response with
  | some (Except.error (RpcResponseError.VerifyError _)) =>
    (response, s1.report_peer peer_id PeerAction.LowToleranceError "lookup_verify_error")
  | _ => (response, s1)

/-- `on_data_columns_by_root_response` (context level). -/
def on_data_columns_by_root_response (s : SyncNetworkContext)
    (id : DataColumnsByRootRequestId) (peer_id : PeerId)
    (rpc_event : RpcEvent DataColumnSidecar) :
    Option (Except RpcResponseError (List DataColumnSidecar)) ×
      SyncNetworkContext :=
  let rm := ActiveRequests.on_response s.data_columns_by_root_requests id rpc_event
  report_rpc_response_errors
    { s with data_columns_by_root_requests := rm.2 } rm.1 peer_id

/-- `on_blocks_by_range_response` (context level). -/
def on_blocks_by_range_response (s : SyncNetworkContext)
    (id : BlocksByRangeRequestId) (peer_id : PeerId)
    (rpc_event : RpcEvent SignedBeaconBlock) :
    Option (Except RpcResponseError (List SignedBeaconBlock)) ×
      SyncNetworkContext :=
  let rm := ActiveRequests.on_response s.blocks_by_range_requests id rpc_event
  report_rpc_response_errors
    { s with blocks_by_range_requests := rm.2 } rm.1 peer_id

/-- `on_blobs_by_range_response` (context level). -/
def on_blobs_by_range_response (s : SyncNetworkContext)
    (id : BlobsByRangeRequestId) (peer_id : PeerId)
    (rpc_event : RpcEvent BlobSidecar) :
    Option (Except RpcResponseError (List BlobSidecar)) × SyncNetworkContext :=
  let rm := ActiveRequests.on_response s.blobs_by_range_requests id rpc_event
  report_rpc_response_errors
    { s with blobs_by_range_requests := rm.2 } rm.1 peer_id

/-- `on_data_columns_by_range_response` (context level). -/
def on_data_columns_by_range_response (s : SyncNetworkContext)
    (id : DataColumnsByRangeRequestId) (peer_id : PeerId)
    (rpc_event : RpcEvent DataColumnSidecar) :
    Option (Except RpcResponseError (List DataColumnSidecar)) ×
      SyncNetworkContext :=
  let rm := ActiveRequests.on_response s.data_columns_by_range_requests id rpc_event
  report_rpc_response_errors
    { s with data_columns_by_range_requests := rm.2 } rm.1 peer_id

/-- `range_block_component_response`: received a finished block / blob /
column sub-stream for a request that couples blocks and data. An unknown
id produces no result and no change; an error removes the request and
returns the error; otherwise the component is buffered, and once all
expected component streams have finished the request is removed and the
coupled responses are returned. The per-component `match` of the source is
split out as `apply_range_block_component`. -/
def apply_range_block_component (request : RangeBlockComponentsRequest)
    (range_block_component : RangeBlockComponent) :
    Except RpcResponseError RangeBlockComponentsRequest :=
  match range_block_component with
  | RangeBlockComponent.Block (Except.ok blocks) =>
      Except.ok (request.add_blocks blocks)
  | RangeBlockComponent.Block (Except.error e) => Except.error e
  | RangeBlockComponent.Blob (Except.ok blobs) =>
      Except.ok (request.add_blobs blobs)
  | RangeBlockComponent.Blob (Except.error e) => Except.error e
  | RangeBlockComponent.CustodyColumns (Except.ok columns) =>
      Except.ok (request.add_custody_columns columns)
  | RangeBlockComponent.CustodyColumns (Except.error e) => Except.error e

/-- `range_block_component_response`, continued: dispatch on the lookup and
the applied component result. -/
def range_block_component_response (s : SyncNetworkContext)
    (id : ComponentsByRangeRequestId)
    (range_block_component : RangeBlockComponent) :
    Option (Except RpcResponseError (List RpcBlock)) × SyncNetworkContext :=
  match alist_lookup s.components_by_range_requests id with
  | none => (none, s)
  | some request =>
    match apply_range_block_component request range_block_component with
    | Except.error e =>
      (some (Except.error e),
        { s with components_by_range_requests := alist_remove s.components_by_range_requests id })
    | Except.ok request1 =>
      if request1.is_finished then
        (some (match request1.into_responses with
          | Except.ok blocks => Except.ok blocks
          | Except.error e =>
              Except.error (RpcResponseError.BlockComponentCouplingError e)),
          { s with components_by_range_requests := alist_remove s.components_by_range_requests id })
      else
        (none,
          { s with components_by_range_requests := alist_insert s.components_by_range_requests id request1 })

/-- `handle_custody_by_root_result`: a terminal `Ok`/`Err` result is
returned (request stays removed); a still-in-progress request is
re-inserted into the map. -/
def handle_custody_by_root_result (s : SyncNetworkContext)
    (id : CustodyRequester) (request : ActiveCustodyRequest)
    (result : CustodyRequestResult) :
    Option CustodyByRootResult × SyncNetworkContext :=
  match result with
  | Except.ok (some value) => (some (Except.ok value), s)
  | Except.error e =>
    (some (Except.error (RpcResponseError.CustodyRequestError e)), s)
  | Except.ok none =>
    (none,
      { s with custody_by_root_requests := alist_insert s.custody_by_root_requests id request })

/-- The type of the custody-request progress functions
(`ActiveCustodyRequest::continue_requests` /
`::on_data_column_downloaded`, custody.rs, not among the sources): given
the request and the context, produce the request result, the mutated
request state and the mutated context. -/
abbrev CustodyStep :=
  ActiveCustodyRequest → SyncNetworkContext →
    CustodyRequestResult × ActiveCustodyRequest × SyncNetworkContext

/-- `on_custody_by_root_response`: insert a downloaded column into an
active custody request (progress function passed as `step`), then make
progress on the entire request. An event for an unknown request produces no
result and no change. -/
def on_custody_by_root_response (step : CustodyStep) (s : SyncNetworkContext)
    (id : CustodyId) :
    Option CustodyByRootResult × SyncNetworkContext :=
  match alist_lookup s.custody_by_root_requests id.requester with
  | none => (none, s)
  | some request =>
    let s1 := { s with custody_by_root_requests := alist_remove s.custody_by_root_requests id.requester }
    let step_out := step request s1
    handle_custody_by_root_result step_out.2.2 id.requester step_out.2.1
      step_out.1

/-- One iteration of `continue_custody_by_root_requests`: remove the
request (the source uses `remove(&id).expect(..)`; an id made stale by an
earlier iteration is skipped), make progress on it, and handle the
result. -/
def custody_continue_step (step : CustodyStep)
    (acc : List (CustodyRequester × CustodyByRootResult) ×
      SyncNetworkContext) (id : CustodyRequester) :
    List (CustodyRequester × CustodyByRootResult) × SyncNetworkContext :=
  match alist_lookup acc.2.custody_by_root_requests id with
  | none => acc
  | some request =>
    let s1 := { acc.2 with custody_by_root_requests := alist_remove acc.2.custody_by_root_requests id }
    let step_out := step request s1
    match handle_custody_by_root_result step_out.2.2 id step_out.2.1
        step_out.1 with
    | (some result, s2) => (acc.1 ++ [(id, result)], s2)
    | (none, s2) => (acc.1, s2)

/-- `continue_custody_by_root_requests`: attempt to make progress on all
custody-by-root requests, collecting the terminal results. -/
def continue_custody_by_root_requests (step : CustodyStep)
    (s : SyncNetworkContext) :
    List (CustodyRequester × CustodyByRootResult) × SyncNetworkContext :=
  (s.custody_by_root_requests.map Prod.fst).foldl
    (custody_continue_step step) ([], s)

/-- `block_lookup_request`: request the block of `block_root` if necessary.
The random peer choice and the da-checker query are passed in as
`chosen_peer` and `block_process_status`. A sent request is registered with
the strict expected-count policy (`true = enforce max_requests`). -/
def block_lookup_request (s : SyncNetworkContext) (lookup_id : Id)
    (chosen_peer : Option PeerId) (block_root : Hash256)
    (block_process_status : BlockProcessStatus) :
    Except RpcRequestSendError LookupRequestResult × SyncNetworkContext :=
  match chosen_peer with
  | none => (Except.ok (LookupRequestResult.Pending "no peers"), s)
  | some peer_id =>
    match block_process_status with
    | BlockProcessStatus.NotValidated =>
      (Except.ok (LookupRequestResult.Pending "block in processing cache"), s)
    | BlockProcessStatus.ExecutionValidated =>
      (Except.ok (LookupRequestResult.NoRequestNeeded
        "block execution validated"), s)
    | BlockProcessStatus.Unknown =>
      let ns := s.next_id
      let id : SingleLookupReqId := { lookup_id := lookup_id, req_id := ns.1 }
      let s1 := ns.2.send_request peer_id (SyncRequestId.SingleBlock id)
      let req : ActiveRequest _ := { peer_id := peer_id, expect_max_responses := true, max_items := 1, items := [] }
      let s2 := { s1 with blocks_by_root_requests := alist_insert s1.blocks_by_root_requests id req }
      (Except.ok (LookupRequestResult.RequestSent ns.1), s2)

/-- `blob_lookup_request`: request the necessary blobs for `block_root`,
skipping indices already imported. A sent request is registered with the
strict expected-count policy. -/
def blob_lookup_request (s : SyncNetworkContext) (lookup_id : Id)
    (chosen_peer : Option PeerId) (expected_blobs : Nat)
    (imported_blob_indexes : List Nat) :
    Except RpcRequestSendError LookupRequestResult × SyncNetworkContext :=
  match chosen_peer with
  | none => (Except.ok (LookupRequestResult.Pending "no peers"), s)
  | some peer_id =>
    let indices := (List.range expected_blobs).filter
      (fun index => decide (index ∉ imported_blob_indexes))
    if indices.isEmpty then
      (Except.ok (LookupRequestResult.NoRequestNeeded "no indices to fetch"), s)
    else
      let ns := s.next_id
      let id : SingleLookupReqId := { lookup_id := lookup_id, req_id := ns.1 }
      let s1 := ns.2.send_request peer_id (SyncRequestId.SingleBlob id)
      let req : ActiveRequest _ := { peer_id := peer_id, expect_max_responses := true, max_items := indices.length, items := [] }
      let s2 := { s1 with blobs_by_root_requests := alist_insert s1.blobs_by_root_requests id req }
      (Except.ok (LookupRequestResult.RequestSent ns.1), s2)

/-- `send_blocks_by_range_request`: a blocks-by-range request is registered
with the lenient policy (`false = do not enforce max_requests`, missed
blocks are possible). `count` is the requested slot count. -/
def send_blocks_by_range_request (s : SyncNetworkContext) (peer_id : PeerId)
    (count : Nat) (parent_request_id : ComponentsByRangeRequestId) :
    BlocksByRangeRequestId × SyncNetworkContext :=
  let ns := s.next_id
  let id : BlocksByRangeRequestId :=
    { id := ns.1, parent_request_id := parent_request_id }
  let s1 := ns.2.send_request peer_id (SyncRequestId.BlocksByRange id)
  let req : ActiveRequest _ := { peer_id := peer_id, expect_max_responses := false, max_items := count, items := [] }
  let s2 := { s1 with blocks_by_range_requests := alist_insert s1.blocks_by_range_requests id req }
  (id, s2)

/-- `send_blobs_by_range_request`: lenient policy, like all by-range
requests. -/
def send_blobs_by_range_request (s : SyncNetworkContext) (peer_id : PeerId)
    (count : Nat) (max_blobs_per_block : Nat)
    (parent_request_id : ComponentsByRangeRequestId) :
    BlobsByRangeRequestId × SyncNetworkContext :=
  let ns := s.next_id
  let id : BlobsByRangeRequestId :=
    { id := ns.1, parent_request_id := parent_request_id }
  let s1 := ns.2.send_request peer_id (SyncRequestId.BlobsByRange id)
  let req : ActiveRequest _ := { peer_id := peer_id, expect_max_responses := false, max_items := count * max_blobs_per_block, items := [] }
  let s2 := { s1 with blobs_by_range_requests := alist_insert s1.blobs_by_range_requests id req }
  (id, s2)

/-- `send_data_columns_by_range_request`: lenient policy, like all by-range
requests. -/
def send_data_columns_by_range_request (s : SyncNetworkContext)
    (peer_id : PeerId) (count : Nat) (columns : List Nat)
    (parent_request_id : ComponentsByRangeRequestId) :
    DataColumnsByRangeRequestId × SyncNetworkContext :=
  let ns := s.next_id
  let id : DataColumnsByRangeRequestId :=
    { id := ns.1, parent_request_id := parent_request_id }
  let s1 := ns.2.send_request peer_id (SyncRequestId.DataColumnsByRange id)
  let req : ActiveRequest _ := { peer_id := peer_id, expect_max_responses := false, max_items := count * columns.length, items := [] }
  let s2 := { s1 with data_columns_by_range_requests := alist_insert s1.data_columns_by_range_requests id req }
  (id, s2)

/-- `make_columns_by_range_requests`: group the needed column indexes by a
randomly selected custodial peer (the peer choice is passed in as
`custodial_peer`); fails with `NoCustodyPeers` when a column has none. -/
def make_columns_by_range_requests (custodial_peer : Nat → Option PeerId)
    (custody_indexes : List Nat) :
    Except RpcRequestSendError (List (PeerId × List Nat)) :=
  custody_indexes.foldlM (fun acc column_index =>
    match custodial_peer column_index with
    | none => Except.error RpcRequestSendError.NoCustodyPeers
    | some custody_peer =>
      match alist_lookup acc custody_peer with
      | none => Except.ok (alist_insert acc custody_peer [column_index])
      | some cols => Except.ok (alist_insert acc custody_peer
          (cols ++ [column_index]))) []

/-- `block_components_by_range_request`: create the overall
components-by-range request, send the blocks / blobs / columns sub-requests
its batch type demands, and register the coupler tracking which component
streams are expected. -/
def block_components_by_range_request (s : SyncNetworkContext)
    (peer_id : PeerId) (batch_type : ByRangeRequestType) (count : Nat)
    (requester : RangeRequestId) (sampling_columns : List Nat)
    (custodial_peer : Nat → Option PeerId) (max_blobs_per_block : Nat) :
    Except RpcRequestSendError Id × SyncNetworkContext :=
  let ns := s.next_id
  let id : ComponentsByRangeRequestId := { id := ns.1, requester := requester }
  let bs := send_blocks_by_range_request ns.2 peer_id count id
  let blobs_out :
      Option BlobsByRangeRequestId × SyncNetworkContext :=
    if batch_type = ByRangeRequestType.BlocksAndBlobs then
      let out := send_blobs_by_range_request bs.2 peer_id count
        max_blobs_per_block id
      (some out.1, out.2)
    else (none, bs.2)
  if batch_type = ByRangeRequestType.BlocksAndColumns then
    match make_columns_by_range_requests custodial_peer sampling_columns with
    | Except.error e => (Except.error e, blobs_out.2)
    | Except.ok groups =>
      let s1 := groups.foldl (fun st group =>
        (send_data_columns_by_range_request st group.1 count group.2 id).2)
        blobs_out.2
      let info := RangeBlockComponentsRequest.new blobs_out.1.isSome
        (some sampling_columns) (some groups.length)
      (Except.ok ns.1,
        { s1 with components_by_range_requests := alist_insert s1.components_by_range_requests id info })
  else
    let info := RangeBlockComponentsRequest.new blobs_out.1.isSome none none
    (Except.ok ns.1,
      { blobs_out.2 with components_by_range_requests := alist_insert blobs_out.2.components_by_range_requests id info })

end SyncNetworkContext

/-! ## Sync manager (manager.rs) -/

/-- `SLOT_IMPORT_TOLERANCE` (manager.rs 86): the number of slots ahead of us
allowed before requesting a long-range sync. -/
def SLOT_IMPORT_TOLERANCE : Nat := 32

/-- Modelled from the spec: the global `SyncState`
(lighthouse_network types, not among the sources), with the values the spec
lists. -/
inductive SyncState where
  | Synced
  | SyncingFinalized (start_slot : Slot) (target_slot : Slot)
  | SyncingHead (start_slot : Slot) (target_slot : Slot)
  | SyncTransition
  | BackFillSyncing (completed : Nat) (remaining : Nat)
  | Stalled
deriving DecidableEq, Repr

/-- Modelled from the spec: `SyncState::is_synced` — only `Synced` counts
as synced. -/
def SyncState.is_synced : SyncState → Bool
  | SyncState.Synced => true
  | _ => false

/-- `SyncStart`: the result of `BackFillSync::start`. -/
inductive SyncStart where
  | Syncing (completed : Nat) (remaining : Nat)
  | NotSyncing
deriving DecidableEq, Repr

/-- The inputs `update_sync_state` reads: the range-sync state (an error,
no active chain, or an active chain with its sync type and start/target
slots), the local head slot, the current slot, whether any advanced /
synced peers exist, and the outcome of `backfill_sync.start`. -/
structure SyncStateInputs where
  range_sync_state : Except String (Option (RangeSyncType × Slot × Slot))
  head : Slot
  current_slot : Slot
  has_advanced_peers : Bool
  has_synced_peers : Bool
  backfill_start : Except String SyncStart
deriving DecidableEq, Repr

/-- `update_sync_state`, state computation (manager.rs 598-679): `none` on
a range-sync state error (early return, no state change); otherwise the new
global sync state together with whether a backfill sync was paused. When a
range chain is active the state follows the chain and backfill is paused;
otherwise the node is `Synced` within the slot-import tolerance (or with no
advanced peer but a synced peer), `SyncTransition` with an advanced peer,
`Stalled` with no synced peer — and a `Synced` outcome consults
`backfill_sync.start`, becoming `BackFillSyncing` when it starts. -/
def compute_new_sync_state (i : SyncStateInputs) :
    Option (SyncState × Bool) :=
  match i.range_sync_state with
  | Except.error _ => none
  | Except.ok (some (RangeSyncType.Finalized, start_slot, target_slot)) =>
    some (SyncState.SyncingFinalized start_slot target_slot, true)
  | Except.ok (some (RangeSyncType.Head, start_slot, target_slot)) =>
    some (SyncState.SyncingHead start_slot target_slot, true)
  | Except.ok none =>
    let sync_state :=
      if i.current_slot ≥ i.head ∧
          i.current_slot - i.head ≤ SLOT_IMPORT_TOLERANCE ∧ i.head > 0 then
        SyncState.Synced
      else if i.has_advanced_peers then SyncState.SyncTransition
      else if i.has_synced_peers = false then SyncState.Stalled
      else SyncState.Synced
    let sync_state1 :=
      if sync_state = SyncState.Synced then
        match i.backfill_start with
        | Except.ok (SyncStart.Syncing completed remaining) =>
          SyncState.BackFillSyncing completed remaining
        | Except.ok SyncStart.NotSyncing => sync_state
        | Except.error _ => sync_state
      else sync_state
    some (sync_state1, false)

/-- `update_sync_state`, full (manager.rs 598-697): compute the new state,
swap it into the globals (the previous value is `old_state`), and send the
subscribe-to-core-topics message on a transition into a synced state whose
old state is not `Synced` or `BackFillSyncing`. Returns the new state,
whether backfill was paused, and whether the subscription was sent. -/
def update_sync_state (i : SyncStateInputs) (old_state : SyncState) :
    Option (SyncState × Bool × Bool) :=
  match compute_new_sync_state i with
  | none => none
  | some (new_state, paused) =>
    let subscribed :=
      if new_state ≠ old_state then
        new_state.is_synced &&
          !(match old_state with
            | SyncState.Synced => true
            | SyncState.BackFillSyncing _ _ => true
            | _ => false)
      else false
    some (new_state, paused, subscribed)

/-! ## C7: execution engine Online/Offline transitions -/

/-- Modelled from the spec: the block-lookup component state relevant to
execution-engine transitions (block_lookups module, not among the sources):
the in-flight single-block lookup request ids and the parent-lookup chain
structure. -/
structure BlockLookups where
  single_block_requests : List Id
  parent_chains : List (List Hash256)
deriving DecidableEq, Repr

/-- Modelled from the spec: `drop_single_block_requests` drops all
in-flight single-block lookup requests and returns how many were
dropped. -/
def BlockLookups.drop_single_block_requests (b : BlockLookups) :
    Nat × BlockLookups :=
  (b.single_block_requests.length, { b with single_block_requests := [] })

/-- The sync manager state relevant to execution-engine transitions: the
network context, the block lookups, and the count of `range_sync.resume`
calls (abstracting the resume action). -/
structure SyncManagerModel where
  network : SyncNetworkContext
  block_lookups : BlockLookups
  range_sync_resume_count : Nat
deriving DecidableEq, Repr

/-- `handle_new_execution_engine_state` (manager.rs 972-1019): store the
engine state in the network context; on `Online` actively resume range
sync; on `Offline` drop all single-block lookup requests (parent lookups
structurally unaffected). Nothing is replayed on either transition. -/
def handle_new_execution_engine_state (m : SyncManagerModel)
    (engine_state : EngineState) : SyncManagerModel :=
  let m1 := { m with network :=
      m.network.update_execution_engine_state engine_state }
  match engine_state with
  | EngineState.Online =>
    { m1 with range_sync_resume_count := m1.range_sync_resume_count + 1 }
  | EngineState.Offline =>
    { m1 with block_lookups :=
        (m1.block_lookups.drop_single_block_requests).2 }

/-- `should_search_for_block` (manager.rs 940-970): refuse when not synced
and the block slot is absent or outside the slot-import tolerance of the
head, when the peer is not connected, or when the execution engine is
offline. -/
def should_search_for_block (is_synced : Bool) (block_slot : Option Slot)
    (head_slot : Slot) (peer_connected : Bool) (engine_online : Bool) :
    Except String Unit :=
  let rest : Except String Unit :=
    if peer_connected = false then Except.error "peer not connected"
    else if engine_online = false then
      Except.error "execution engine offline"
    else Except.ok ()
  if is_synced = false then
    match block_slot with
    | none => Except.error "not synced"
    | some bs =>
      if (head_slot ≥ bs ∧ head_slot - bs > SLOT_IMPORT_TOLERANCE) ∨
          (head_slot < bs ∧ bs - head_slot > SLOT_IMPORT_TOLERANCE) then
        Except.error "not synced"
      else rest
  else rest

/-- The manager's routing of a resolved response into the block-lookup /
range / backfill / custody / sampling components. Modelled from the spec:
those modules are not among the sources; the routing is abstracted as a
context transformer keyed by the resolved request id, constrained in the
theorems not to create requests for the disconnected peer. -/
abbrev ResponseRouter :=
  SyncRequestId → SyncNetworkContext → SyncNetworkContext

/-- `inject_error` (manager.rs 482-504): dispatch an RPC error to the
matching response handler; a terminal resolution is routed onward to the
requesting component. -/
def inject_error (route : ResponseRouter) (max_blobs : Nat)
    (s : SyncNetworkContext) (peer_id : PeerId)
    (request_id : SyncRequestId) (error : RPCError) : SyncNetworkContext :=
  match request_id with
  | SyncRequestId.SingleBlock id =>
    match s.on_single_block_response id peer_id (RpcEvent.RPCError error) with
    | (some _, s1) => route request_id s1
    | (none, s1) => s1
  | SyncRequestId.SingleBlob id =>
    match SyncNetworkContext.on_single_blob_response max_blobs s id peer_id
        (RpcEvent.RPCError error) with
    | (some _, s1) => route request_id s1
    | (none, s1) => s1
  | SyncRequestId.DataColumnsByRoot id =>
    match s.on_data_columns_by_root_response id peer_id
        (RpcEvent.RPCError error) with
    | (some _, s1) => route request_id s1
    | (none, s1) => s1
  | SyncRequestId.BlocksByRange id =>
    match s.on_blocks_by_range_response id peer_id
        (RpcEvent.RPCError error) with
    | (some _, s1) => route request_id s1
    | (none, s1) => s1
  | SyncRequestId.BlobsByRange id =>
    match s.on_blobs_by_range_response id peer_id
        (RpcEvent.RPCError error) with
    | (some _, s1) => route request_id s1
    | (none, s1) => s1
  | SyncRequestId.DataColumnsByRange id =>
    match s.on_data_columns_by_range_response id peer_id
        (RpcEvent.RPCError error) with
    | (some _, s1) => route request_id s1
    | (none, s1) => s1

/-- `peer_disconnect` (manager.rs 511-527): inject a `Disconnected` error
on all requests associated with the disconnected peer; the notifications
to range sync, backfill and block lookups and the final
`update_sync_state` are abstracted into `cleanup`. Returns the injected
(id, error) events and the resulting context. -/
def peer_disconnect (route : ResponseRouter)
    (cleanup : SyncNetworkContext → SyncNetworkContext) (max_blobs : Nat)
    (s : SyncNetworkContext) (peer_id : PeerId) :
    List (SyncRequestId × RPCError) × SyncNetworkContext :=
  ((s.peer_disconnected peer_id).map (fun id => (id, RPCError.Disconnected)),
    cleanup ((s.peer_disconnected peer_id).foldl
      (fun st id => inject_error route max_blobs st peer_id id
        RPCError.Disconnected) s))

/-! ## Theorems -/

theorem alist_remove_cons {K V : Type} [DecidableEq K] (p : K × V)
    (rest : List (K × V)) (k : K) :
    alist_remove (p :: rest) k =
      if p.1 = k then alist_remove rest k else p :: alist_remove rest k := by
  by_cases h : p.1 = k <;> simp [alist_remove, List.filter_cons, h]

theorem alist_lookup_remove_self {K V : Type} [DecidableEq K]
    (m : List (K × V)) (k : K) : alist_lookup (alist_remove m k) k = none := by
  induction m with
  | nil => rfl
  | cons p rest ih =>
    rw [alist_remove_cons]
    by_cases h : p.1 = k
    · simpa [h] using ih
    · rw [if_neg h, alist_lookup, if_neg (fun hh => h hh.symm)]
      exact ih

theorem alist_lookup_remove_ne {K V : Type} [DecidableEq K]
    (m : List (K × V)) (k k' : K) (h : k' ≠ k) :
    alist_lookup (alist_remove m k) k' = alist_lookup m k' := by
  induction m with
  | nil => rfl
  | cons p rest ih =>
    rw [alist_remove_cons]
    by_cases hp : p.1 = k
    · rw [if_pos hp, ih, alist_lookup, if_neg (fun hh => h (hh.trans hp))]
    · rw [if_neg hp, alist_lookup, alist_lookup]
      by_cases hk : k' = p.1
      · simp [hk]
      · rw [if_neg hk, if_neg hk]
        exact ih

theorem alist_lookup_insert_self {K V : Type} [DecidableEq K]
    (m : List (K × V)) (k : K) (v : V) :
    alist_lookup (alist_insert m k v) k = some v := by
  simp [alist_insert, alist_lookup]

theorem alist_lookup_insert_ne {K V : Type} [DecidableEq K]
    (m : List (K × V)) (k k' : K) (v : V) (h : k' ≠ k) :
    alist_lookup (alist_insert m k v) k' = alist_lookup m k' := by
  rw [alist_insert, alist_lookup]
  simp only [h, if_false]
  exact alist_lookup_remove_ne m k k' h

/-- A key has an entry in the list iff lookup finds one. -/
theorem alist_lookup_eq_none_iff {K V : Type} [DecidableEq K]
    (m : List (K × V)) (k : K) :
    alist_lookup m k = none ↔ ∀ v, (k, v) ∉ m := by
  induction m with
  | nil => simp [alist_lookup]
  | cons p rest ih =>
    rw [alist_lookup]
    by_cases h : k = p.1
    · rw [if_pos h]
      constructor
      · intro hc
        simp at hc
      · intro hall
        have hmem : (k, p.2) ∈ p :: rest := by
          subst h
          simp
        exact ((hall p.2) hmem).elim
    · rw [if_neg h, ih]
      constructor
      · intro hall v hv
        rcases List.mem_cons.mp hv with heq | hmem
        · exact h (congrArg Prod.fst heq)
        · exact hall v hmem
      · intro hall v hv
        exact hall v (List.mem_cons_of_mem _ hv)

/-- C6: For every pair of local and remote sync infos, `RangeSyncType.new`
returns `Finalized` if and only if the remote's finalized epoch is strictly
greater than the local finalized epoch and the remote's finalized root is not
already known to fork-choice; in every other case it returns `Head`. -/
theorem rangeSyncType_new_finalized_iff
    (known : Hash256 → Bool) (local_info remote_info : SyncInfo) :
    (RangeSyncType.new known local_info remote_info = RangeSyncType.Finalized ↔
      (remote_info.finalized_epoch > local_info.finalized_epoch ∧
        known remote_info.finalized_root = false)) ∧
    (RangeSyncType.new known local_info remote_info = RangeSyncType.Head ↔
      ¬(remote_info.finalized_epoch > local_info.finalized_epoch ∧
        known remote_info.finalized_root = false)) := by
  by_cases h1 : remote_info.finalized_epoch > local_info.finalized_epoch
  · by_cases h2 : known remote_info.finalized_root = false
    · simp [RangeSyncType.new, h1, h2]
    · have h2' : known remote_info.finalized_root = true := by
        cases hk : known remote_info.finalized_root
        · exact absurd hk h2
        · rfl
      simp [RangeSyncType.new, h1, h2']
  · simp [RangeSyncType.new, h1]

/-- Witness for C6: a remote two epochs ahead with an unknown finalized
root is classified as a `Finalized` sync target. -/
theorem rangeSyncType_new_finalized_iff_witness :
    RangeSyncType.new (fun _ => false)
      { head_slot := 0, head_root := 0, finalized_epoch := 1,
        finalized_root := 0 }
      { head_slot := 64, head_root := 1, finalized_epoch := 3,
        finalized_root := 2 } = RangeSyncType.Finalized :=
  (rangeSyncType_new_finalized_iff (fun _ => false)
    { head_slot := 0, head_root := 0, finalized_epoch := 1,
      finalized_root := 0 }
    { head_slot := 64, head_root := 1, finalized_epoch := 3,
      finalized_root := 2 }).1.mpr ⟨by decide, rfl⟩

/-! ## Helper lemmas about the context operations -/

theorem range_block_component_response_unknown (s : SyncNetworkContext)
    (id : ComponentsByRangeRequestId) (comp : RangeBlockComponent)
    (h : alist_lookup s.components_by_range_requests id = none) :
    s.range_block_component_response id comp = (none, s) := by
  unfold SyncNetworkContext.range_block_component_response
  rw [h]

theorem range_block_component_response_some_removed (s : SyncNetworkContext)
    (id : ComponentsByRangeRequestId) (comp : RangeBlockComponent)
    (r : Except RpcResponseError (List RpcBlock)) (s' : SyncNetworkContext)
    (heq : s.range_block_component_response id comp = (some r, s')) :
    alist_lookup s'.components_by_range_requests id = none := by
  unfold SyncNetworkContext.range_block_component_response at heq
  split at heq
  · simp at heq
  · split at heq
    · rw [Prod.mk.injEq] at heq
      obtain ⟨-, h2⟩ := heq
      rw [← h2]
      exact alist_lookup_remove_self _ _
    · split at heq
      · rw [Prod.mk.injEq] at heq
        obtain ⟨-, h2⟩ := heq
        rw [← h2]
        exact alist_lookup_remove_self _ _
      · simp at heq

theorem on_custody_by_root_response_unknown
    (step : SyncNetworkContext.CustodyStep)
    (s : SyncNetworkContext) (cid : CustodyId)
    (h : alist_lookup s.custody_by_root_requests cid.requester = none) :
    SyncNetworkContext.on_custody_by_root_response step s cid = (none, s) := by
  unfold SyncNetworkContext.on_custody_by_root_response
  rw [h]

theorem on_custody_by_root_response_some_removed
    (step : SyncNetworkContext.CustodyStep)
    (s : SyncNetworkContext) (cid : CustodyId) (cr : CustodyByRootResult)
    (cs' : SyncNetworkContext)
    (hpres : ∀ req c, ((step req c).2.2).custody_by_root_requests =
      c.custody_by_root_requests)
    (heq : SyncNetworkContext.on_custody_by_root_response step s cid =
      (some cr, cs')) :
    alist_lookup cs'.custody_by_root_requests cid.requester = none := by
  unfold SyncNetworkContext.on_custody_by_root_response at heq
  split at heq
  · simp at heq
  · unfold SyncNetworkContext.handle_custody_by_root_result at heq
    simp only [] at heq
    split at heq
    · rw [Prod.mk.injEq] at heq
      obtain ⟨-, h2⟩ := heq
      rw [← h2, hpres]
      exact alist_lookup_remove_self _ _
    · rw [Prod.mk.injEq] at heq
      obtain ⟨-, h2⟩ := heq
      rw [← h2, hpres]
      exact alist_lookup_remove_self _ _
    · simp at heq

/-! ## C9: next_id -/

/-- Counterexample to C9 as stated: the id counter is a `u32`
(api_types.rs: `pub type Id = u32`), and `request_id += 1` wraps at
`2 ^ 32` in a release build. With the counter at `2 ^ 32 - 1` and an
outstanding request id `0` — which satisfies the issued-earlier invariant
`0 < 2 ^ 32 - 1` — the next two issued ids are `2 ^ 32 - 1` and then `0`:
the second is not strictly larger than the first, and `0` is reused while
a request with id `0` is outstanding. -/
theorem next_id_monotonic_counterexample :
    (∀ id ∈ [0],
      id < ({ SyncNetworkContext.new with request_id := 2 ^ 32 - 1 } :
        SyncNetworkContext).request_id) ∧
    ¬(({ SyncNetworkContext.new with request_id := 2 ^ 32 - 1 } :
        SyncNetworkContext).next_id.1 <
      ({ SyncNetworkContext.new with request_id := 2 ^ 32 - 1 } :
        SyncNetworkContext).next_id.2.next_id.1) ∧
    ({ SyncNetworkContext.new with request_id := 2 ^ 32 - 1 } :
      SyncNetworkContext).next_id.2.next_id.1 ∈ [0] := by
  refine ⟨by decide, by decide, by decide⟩

/-- C9 (amended): every call to `next_id` returns the current counter
value and increments it by one modulo `2 ^ 32` (the counter is a `u32`).
As long as the increment does not wrap (`request_id + 1 < 2 ^ 32`), each
successive issued request gets a strictly larger ID, and — given the
invariant that all outstanding request ids were issued earlier (are below
the counter) — an ID is never reused while a request with that ID is
outstanding; at the `2 ^ 32` boundary the counter wraps and ids can
repeat. -/
theorem next_id_monotonic (s : SyncNetworkContext) (outstanding : List Id)
    (h : ∀ id ∈ outstanding, id < s.request_id)
    (hw : s.request_id + 1 < 2 ^ 32) :
    (s.next_id.1 = s.request_id ∧
      s.next_id.2.request_id = s.request_id + 1) ∧
    s.next_id.1 < s.next_id.2.next_id.1 ∧
    s.next_id.1 ∉ outstanding ∧
    (∀ id ∈ outstanding ++ [s.next_id.1], id < s.next_id.2.request_id) := by
  have hmod : (s.request_id + 1) % 2 ^ 32 = s.request_id + 1 :=
    Nat.mod_eq_of_lt hw
  refine ⟨⟨rfl, hmod⟩, ?_, ?_, ?_⟩
  · show s.request_id < (s.request_id + 1) % 2 ^ 32
    rw [hmod]
    exact Nat.lt_succ_self _
  · intro hmem
    exact absurd (h _ hmem) (Nat.lt_irrefl _)
  · intro id hid
    rcases List.mem_append.mp hid with hmem | hmem
    · show id < (s.request_id + 1) % 2 ^ 32
      rw [hmod]
      exact Nat.lt_succ_of_lt (h id hmem)
    · rw [List.mem_singleton] at hmem
      rw [hmem]
      show s.request_id < (s.request_id + 1) % 2 ^ 32
      rw [hmod]
      exact Nat.lt_succ_self _

/-- Witness for C9 (amended): at the fresh context (counter 1, no wrap)
with outstanding request id 0, the freshly issued id is not among the
outstanding ones. -/
theorem next_id_monotonic_witness :
    SyncNetworkContext.new.next_id.1 ∉ [0] :=
  (next_id_monotonic SyncNetworkContext.new [0] (by decide)
    (by decide)).2.2.1

/-! ## C1: at most one terminal resolution per request id -/

/-- C1: For every sync request ID at most one terminal resolution is ever
delivered, and a response or error event arriving for an ID that is no
longer tracked produces no result and leaves all sync state unchanged:
`range_block_component_response` and `on_custody_by_root_response` return
`None` when the ID is not in their active-request maps, and any terminal
resolution removes the ID from the map so a repeated event returns `None`. -/
theorem terminal_resolution_at_most_once (s : SyncNetworkContext)
    (id : ComponentsByRangeRequestId) (comp comp2 : RangeBlockComponent)
    (step : SyncNetworkContext.CustodyStep) (cid : CustodyId)
    (r : Except RpcResponseError (List RpcBlock)) (s' : SyncNetworkContext)
    (cr : CustodyByRootResult) (cs' : SyncNetworkContext) :
    (alist_lookup s.components_by_range_requests id = none →
      s.range_block_component_response id comp = (none, s)) ∧
    (s.range_block_component_response id comp = (some r, s') →
      alist_lookup s'.components_by_range_requests id = none ∧
      s'.range_block_component_response id comp2 = (none, s')) ∧
    (alist_lookup s.custody_by_root_requests cid.requester = none →
      SyncNetworkContext.on_custody_by_root_response step s cid = (none, s)) ∧
    ((∀ req c, ((step req c).2.2).custody_by_root_requests =
        c.custody_by_root_requests) →
      SyncNetworkContext.on_custody_by_root_response step s cid =
        (some cr, cs') →
      alist_lookup cs'.custody_by_root_requests cid.requester = none ∧
      SyncNetworkContext.on_custody_by_root_response step cs' cid =
        (none, cs')) := by
  refine ⟨?_, ?_, ?_, ?_⟩
  · exact range_block_component_response_unknown s id comp
  · intro heq
    have hrem := range_block_component_response_some_removed s id comp r s' heq
    exact ⟨hrem, range_block_component_response_unknown s' id comp2 hrem⟩
  · exact on_custody_by_root_response_unknown step s cid
  · intro hpres heq
    have hrem := on_custody_by_root_response_some_removed step s cid cr cs'
      hpres heq
    exact ⟨hrem, on_custody_by_root_response_unknown step cs' cid hrem⟩

/-- Witness for C1: on the fresh context (no tracked requests) a
components-by-range response event produces no result and no change. -/
theorem terminal_resolution_at_most_once_witness :
    SyncNetworkContext.new.range_block_component_response
      { id := 0, requester := RangeRequestId.BackfillSync 0 }
      (RangeBlockComponent.Block (Except.ok [])) =
      (none, SyncNetworkContext.new) :=
  (terminal_resolution_at_most_once SyncNetworkContext.new
    { id := 0, requester := RangeRequestId.BackfillSync 0 }
    (RangeBlockComponent.Block (Except.ok []))
    (RangeBlockComponent.Block (Except.ok []))
    (fun req c => (Except.ok none, req, c))
    { requester := { id := { lookup_id := 0, req_id := 0 } } }
    (Except.ok []) SyncNetworkContext.new
    (Except.ok ([], [])) SyncNetworkContext.new).1 rfl

/-! ## C5: components-by-range coupling -/

/-- C5: Within one components-by-range request the block, blob and
custody-column sub-streams may complete in any order (buffering the
components commutes); `range_block_component_response` buffers each
component result and returns `None` while any expected component stream is
unfinished; once all expected streams have finished it removes the request
and returns the per-slot coupled block bundles exactly once; and if any
component result is an error it removes the request and returns that error
instead of a partial result. -/
theorem range_components_coupling (s : SyncNetworkContext)
    (id : ComponentsByRangeRequestId)
    (request request1 : RangeBlockComponentsRequest)
    (comp comp2 : RangeBlockComponent) (e : RpcResponseError)
    (blocks : List SignedBeaconBlock) (blobs : List BlobSidecar)
    (columns : List DataColumnSidecar)
    (hl : alist_lookup s.components_by_range_requests id = some request) :
    (SyncNetworkContext.apply_range_block_component request comp =
        Except.ok request1 →
      request1.is_finished = false →
      s.range_block_component_response id comp =
        (none, { s with components_by_range_requests :=
            alist_insert s.components_by_range_requests id request1 })) ∧
    (SyncNetworkContext.apply_range_block_component request comp =
        Except.ok request1 →
      request1.is_finished = true →
      s.range_block_component_response id comp =
        (some (match request1.into_responses with
               | Except.ok bundles => Except.ok bundles
               | Except.error msg => Except.error
                   (RpcResponseError.BlockComponentCouplingError msg)),
          { s with components_by_range_requests :=
              alist_remove s.components_by_range_requests id }) ∧
      (∀ r' s'', s.range_block_component_response id comp = (some r', s'') →
        s''.range_block_component_response id comp2 = (none, s''))) ∧
    (SyncNetworkContext.apply_range_block_component request comp =
        Except.error e →
      s.range_block_component_response id comp =
        (some (Except.error e),
          { s with components_by_range_requests :=
              alist_remove s.components_by_range_requests id })) ∧
    ((request.add_blocks blocks).add_blobs blobs =
        (request.add_blobs blobs).add_blocks blocks ∧
      (request.add_blocks blocks).add_custody_columns columns =
        (request.add_custody_columns columns).add_blocks blocks ∧
      (request.add_blobs blobs).add_custody_columns columns =
        (request.add_custody_columns columns).add_blobs blobs) := by
  refine ⟨?_, ?_, ?_, rfl, rfl, rfl⟩
  · intro ha hf
    unfold SyncNetworkContext.range_block_component_response
    simp [hl, ha, hf]
  · intro ha hf
    refine ⟨?_, ?_⟩
    · unfold SyncNetworkContext.range_block_component_response
      simp [hl, ha, hf]
    · intro r' s'' hcall
      exact range_block_component_response_unknown s'' id comp2
        (range_block_component_response_some_removed s id comp r' s'' hcall)
  · intro ha
    unfold SyncNetworkContext.range_block_component_response
    simp [hl, ha]

/-- Witness for C5: on a context tracking one components-by-range request
expecting only blocks, a finished block stream completes the request and the
buffering of blocks and blobs commutes. -/
theorem range_components_coupling_witness :
    ((RangeBlockComponentsRequest.new false none none).add_blocks []).add_blobs
        [] =
      ((RangeBlockComponentsRequest.new false none none).add_blobs
        []).add_blocks [] :=
  (range_components_coupling
    { SyncNetworkContext.new with components_by_range_requests :=
        [({ id := 0, requester := RangeRequestId.BackfillSync 0 },
          RangeBlockComponentsRequest.new false none none)] }
    { id := 0, requester := RangeRequestId.BackfillSync 0 }
    (RangeBlockComponentsRequest.new false none none)
    (RangeBlockComponentsRequest.new false none none)
    (RangeBlockComponent.Block (Except.ok []))
    (RangeBlockComponent.Block (Except.ok []))
    (RpcResponseError.RpcError RPCError.Disconnected)
    [] [] [] (by decide)).2.2.2.1

/-! ## C3: strict policy for by-root, lenient policy for by-range -/

/-- C3: Every by-root lookup request is registered with the strict
expected-count policy (enforce max responses = `true`) and every by-range
request with the lenient policy (`false`); a single-block by-root request
that terminates having yielded zero blocks resolves to the
`NotEnoughResponsesReturned` error with actual = 0 and reports the serving
peer with a low-tolerance penalty, while a request that yields the one
requested block resolves `Ok` without error or report. -/
theorem by_root_strict_by_range_lenient (s : SyncNetworkContext)
    (lookup_id : Id) (peer : PeerId) (block_root : Hash256)
    (expected_blobs : Nat) (imported : List Nat) (count max_blobs : Nat)
    (columns : List Nat) (parent : ComponentsByRangeRequestId)
    (id : SingleLookupReqId) (b : SignedBeaconBlock) :
    (alist_lookup
        (s.block_lookup_request lookup_id (some peer) block_root
          BlockProcessStatus.Unknown).2.blocks_by_root_requests
        { lookup_id := lookup_id, req_id := s.request_id } =
      some { peer_id := peer, expect_max_responses := true, max_items := 1,
             items := [] }) ∧
    (((List.range expected_blobs).filter
        (fun index => decide (index ∉ imported))).isEmpty = false →
      alist_lookup
        (s.blob_lookup_request lookup_id (some peer) expected_blobs
          imported).2.blobs_by_root_requests
        { lookup_id := lookup_id, req_id := s.request_id } =
      some { peer_id := peer, expect_max_responses := true,
             max_items := ((List.range expected_blobs).filter
               (fun index => decide (index ∉ imported))).length,
             items := [] }) ∧
    (alist_lookup
        (s.send_blocks_by_range_request peer count
          parent).2.blocks_by_range_requests
        { id := s.request_id, parent_request_id := parent } =
      some { peer_id := peer, expect_max_responses := false,
             max_items := count, items := [] }) ∧
    (alist_lookup
        (s.send_blobs_by_range_request peer count max_blobs
          parent).2.blobs_by_range_requests
        { id := s.request_id, parent_request_id := parent } =
      some { peer_id := peer, expect_max_responses := false,
             max_items := count * max_blobs, items := [] }) ∧
    (alist_lookup
        (s.send_data_columns_by_range_request peer count columns
          parent).2.data_columns_by_range_requests
        { id := s.request_id, parent_request_id := parent } =
      some { peer_id := peer, expect_max_responses := false,
             max_items := count * columns.length, items := [] }) ∧
    (alist_lookup s.blocks_by_root_requests id =
        some { peer_id := peer, expect_max_responses := true, max_items := 1,
               items := [] } →
      (s.on_single_block_response id peer RpcEvent.StreamTermination).1 =
        some (Except.error (RpcResponseError.VerifyError
          (LookupVerifyError.NotEnoughResponsesReturned 0))) ∧
      (s.on_single_block_response id peer
          RpcEvent.StreamTermination).2.out_messages =
        s.out_messages ++ [OutMessage.ReportPeer peer
          PeerAction.LowToleranceError "lookup_verify_error"]) ∧
    (alist_lookup s.blocks_by_root_requests id =
        some { peer_id := peer, expect_max_responses := true, max_items := 1,
               items := [b] } →
      (s.on_single_block_response id peer RpcEvent.StreamTermination).1 =
        some (Except.ok b) ∧
      (s.on_single_block_response id peer
          RpcEvent.StreamTermination).2.out_messages = s.out_messages) := by
  refine ⟨?_, ?_, ?_, ?_, ?_, ?_, ?_⟩
  · exact alist_lookup_insert_self _ _ _
  · intro hne
    unfold SyncNetworkContext.blob_lookup_request
    simp only [hne, Bool.false_eq_true, if_false]
    exact alist_lookup_insert_self _ _ _
  · exact alist_lookup_insert_self _ _ _
  · exact alist_lookup_insert_self _ _ _
  · exact alist_lookup_insert_self _ _ _
  · intro hl
    unfold SyncNetworkContext.on_single_block_response
      ActiveRequests.on_response
    simp [hl, SyncNetworkContext.report_peer, Except.bind]
  · intro hl
    unfold SyncNetworkContext.on_single_block_response
      ActiveRequests.on_response
    simp [hl, Except.bind]

/-- Witness for C3: a tracked single-block request with the strict policy
that terminates with zero blocks resolves to
`NotEnoughResponsesReturned 0`. -/
theorem by_root_strict_by_range_lenient_witness :
    (SyncNetworkContext.on_single_block_response
      { SyncNetworkContext.new with blocks_by_root_requests :=
          [({ lookup_id := 0, req_id := 0 },
            { peer_id := 7, expect_max_responses := true, max_items := 1,
              items := [] })] }
      { lookup_id := 0, req_id := 0 } 7 RpcEvent.StreamTermination).1 =
      some (Except.error (RpcResponseError.VerifyError
        (LookupVerifyError.NotEnoughResponsesReturned 0))) :=
  ((by_root_strict_by_range_lenient
    { SyncNetworkContext.new with blocks_by_root_requests :=
        [({ lookup_id := 0, req_id := 0 },
          { peer_id := 7, expect_max_responses := true, max_items := 1,
            items := [] })] }
    0 7 0 0 [] 0 0 []
    { id := 0, requester := RangeRequestId.BackfillSync 0 }
    { lookup_id := 0, req_id := 0 }
    { slot := 0, num_expected_blobs := 0 }).2.2.2.2.2.1 (by decide)).1

/-! ## C4: the global sync state is a pure function of its inputs -/

/-- C4: `update_sync_state` derives the global sync state as a pure
function of range-sync activity, backfill start, and the
local-head-versus-current-slot comparison: an active range chain gives
`SyncingFinalized`/`SyncingHead` with that chain's slots and pauses
backfill; otherwise the node is `Synced` when
`current_slot ≥ head ∧ current_slot - head ≤ 32 ∧ head > 0` (or when no
advanced peer exists but a synced peer does), `SyncTransition` when an
advanced peer exists, `Stalled` when no synced peer exists, and a `Synced`
outcome becomes `BackFillSyncing` when the backfill sync starts. -/
theorem update_sync_state_pure (i : SyncStateInputs) (t : RangeSyncType)
    (start_slot target_slot : Slot) :
    (i.range_sync_state = Except.ok (some (t, start_slot, target_slot)) →
      compute_new_sync_state i = some
        ((match t with
          | RangeSyncType.Finalized =>
            SyncState.SyncingFinalized start_slot target_slot
          | RangeSyncType.Head =>
            SyncState.SyncingHead start_slot target_slot), true)) ∧
    (i.range_sync_state = Except.ok none →
      ((i.current_slot ≥ i.head ∧ i.current_slot - i.head ≤ 32 ∧
          i.head > 0) ∨
        (i.has_advanced_peers = false ∧ i.has_synced_peers = true)) →
      (∀ completed remaining,
        i.backfill_start = Except.ok (SyncStart.Syncing completed remaining) →
        compute_new_sync_state i =
          some (SyncState.BackFillSyncing completed remaining, false)) ∧
      (i.backfill_start = Except.ok SyncStart.NotSyncing →
        compute_new_sync_state i = some (SyncState.Synced, false)) ∧
      (∀ msg, i.backfill_start = Except.error msg →
        compute_new_sync_state i = some (SyncState.Synced, false))) ∧
    (i.range_sync_state = Except.ok none →
      ¬(i.current_slot ≥ i.head ∧ i.current_slot - i.head ≤ 32 ∧
          i.head > 0) →
      i.has_advanced_peers = true →
      compute_new_sync_state i = some (SyncState.SyncTransition, false)) ∧
    (i.range_sync_state = Except.ok none →
      ¬(i.current_slot ≥ i.head ∧ i.current_slot - i.head ≤ 32 ∧
          i.head > 0) →
      i.has_advanced_peers = false → i.has_synced_peers = false →
      compute_new_sync_state i = some (SyncState.Stalled, false)) ∧
    (∀ msg, i.range_sync_state = Except.error msg →
      compute_new_sync_state i = none) := by
  refine ⟨?_, ?_, ?_, ?_, ?_⟩
  · intro hr
    cases t <;> simp [compute_new_sync_state, hr]
  · intro hr hsync
    have hstate : (if i.current_slot ≥ i.head ∧
          i.current_slot - i.head ≤ SLOT_IMPORT_TOLERANCE ∧ i.head > 0 then
        SyncState.Synced
      else if i.has_advanced_peers = true then SyncState.SyncTransition
      else if i.has_synced_peers = false then SyncState.Stalled
      else SyncState.Synced) = SyncState.Synced := by
      rcases hsync with hc | ⟨hadv, hsyn⟩
      · simp [SLOT_IMPORT_TOLERANCE, hc]
      · by_cases hc : i.current_slot ≥ i.head ∧
            i.current_slot - i.head ≤ SLOT_IMPORT_TOLERANCE ∧ i.head > 0
        · simp [hc]
        · simp [hc, hadv, hsyn]
    refine ⟨?_, ?_, ?_⟩
    · intro completed remaining hbf
      simp only [compute_new_sync_state, hr, hbf]
      rw [hstate]
      simp
    · intro hbf
      simp only [compute_new_sync_state, hr, hbf]
      rw [hstate]
      simp
    · intro msg hbf
      simp only [compute_new_sync_state, hr, hbf]
      rw [hstate]
      simp
  · intro hr hc hadv
    have hc32 : ¬(i.current_slot ≥ i.head ∧
        i.current_slot - i.head ≤ SLOT_IMPORT_TOLERANCE ∧ i.head > 0) := hc
    simp only [compute_new_sync_state, hr]
    rw [if_neg hc32, if_pos hadv,
      if_neg (by decide : ¬(SyncState.SyncTransition = SyncState.Synced))]
  · intro hr hc hadv hsyn
    have hc32 : ¬(i.current_slot ≥ i.head ∧
        i.current_slot - i.head ≤ SLOT_IMPORT_TOLERANCE ∧ i.head > 0) := hc
    simp only [compute_new_sync_state, hr]
    rw [if_neg hc32,
      if_neg (show ¬(i.has_advanced_peers = true) by simp [hadv]),
      if_pos hsyn,
      if_neg (by decide : ¬(SyncState.Stalled = SyncState.Synced))]
  · intro msg hr
    simp [compute_new_sync_state, hr]

/-- Witness for C4: with no range chain, head 10 at current slot 10, a
synced peer and no backfill to start, the computed state is `Synced`. -/
theorem update_sync_state_pure_witness :
    compute_new_sync_state
      { range_sync_state := Except.ok none, head := 10, current_slot := 10,
        has_advanced_peers := false, has_synced_peers := true,
        backfill_start := Except.ok SyncStart.NotSyncing } =
      some (SyncState.Synced, false) :=
  ((update_sync_state_pure
    { range_sync_state := Except.ok none, head := 10, current_slot := 10,
      has_advanced_peers := false, has_synced_peers := true,
      backfill_start := Except.ok SyncStart.NotSyncing }
    RangeSyncType.Head 0 0).2.1 rfl (by decide)).2.1 rfl

/-! ## C8: subscribing to core topics on becoming synced -/

/-- Counterexample to C8 as stated: `update_sync_state` moves the state
from `BackFillSyncing 1 2` into `Synced` — a state change into `Synced`
from another state — yet the subscription flag is `false`, because the
source also excludes an old state of `BackFillSyncing` from triggering the
subscription. -/
theorem subscribe_on_synced_counterexample :
    update_sync_state
      { range_sync_state := Except.ok none, head := 10, current_slot := 10,
        has_advanced_peers := false, has_synced_peers := true,
        backfill_start := Except.ok SyncStart.NotSyncing }
      (SyncState.BackFillSyncing 1 2) =
      some (SyncState.Synced, false, false) ∧
    SyncState.BackFillSyncing 1 2 ≠ SyncState.Synced := by
  constructor
  · rfl
  · intro h
    cases h

/-- C8 (amended): whenever `update_sync_state` moves the global sync state
into `Synced` from any state other than `Synced` or `BackFillSyncing`, the
manager sends the subscribe-to-core-gossip-topics message, and the
subscription is not re-sent by later calls that keep the state `Synced`
(nor re-sent on the `BackFillSyncing → Synced` transition, which the source
treats as already subscribed). -/
theorem subscribe_on_synced_transition (i : SyncStateInputs)
    (old_state new_state : SyncState) (paused subbed : Bool)
    (h : update_sync_state i old_state = some (new_state, paused, subbed)) :
    (subbed = true ↔
      (new_state.is_synced = true ∧
        (match old_state with
         | SyncState.Synced => False
         | SyncState.BackFillSyncing _ _ => False
         | _ => True))) ∧
    (old_state = SyncState.Synced → subbed = false) := by
  unfold update_sync_state at h
  cases hc : compute_new_sync_state i with
  | none =>
    rw [hc] at h
    cases h
  | some out =>
    rw [hc] at h
    obtain ⟨ns, p⟩ := out
    simp only [Option.some.injEq, Prod.mk.injEq] at h
    obtain ⟨hns, hp, hsub⟩ := h
    rw [hns] at hsub
    subst hsub
    constructor
    · by_cases hne : new_state ≠ old_state
      · simp only [if_pos hne]
        cases old_state <;> cases new_state <;>
          simp [SyncState.is_synced]
      · simp only [if_neg hne]
        rw [not_not] at hne
        subst hne
        cases new_state <;> simp [SyncState.is_synced]
    · intro hold
      subst hold
      by_cases hne : new_state ≠ SyncState.Synced
      · simp only [if_pos hne]
        simp
      · simp only [if_neg hne]

/-- Witness for C8 (amended): the `Stalled → Synced` transition sets the
subscription flag, and the theorem's condition holds there. -/
theorem subscribe_on_synced_transition_witness :
    SyncState.Synced.is_synced = true ∧
      (match SyncState.Stalled with
       | SyncState.Synced => False
       | SyncState.BackFillSyncing _ _ => False
       | _ => True) :=
  (subscribe_on_synced_transition
    { range_sync_state := Except.ok none, head := 10, current_slot := 10,
      has_advanced_peers := false, has_synced_peers := true,
      backfill_start := Except.ok SyncStart.NotSyncing }
    SyncState.Stalled SyncState.Synced false true rfl).1.mp rfl

/-- C7: On an Online-to-Offline transition the sync manager drops all
in-flight single-block lookup requests (the parent-lookup structure is
otherwise unchanged) and subsequently refuses to start new lookups
(`should_search_for_block` errors and no block is forwarded to the
processor while offline); on the Offline-to-Online transition it
explicitly resumes range sync, and no previously dropped request is
replayed. -/
theorem engine_state_transitions (m : SyncManagerModel) (is_synced : Bool)
    (block_slot : Option Slot) (head_slot : Slot) (peer_connected : Bool)
    (root : Hash256) :
    ((handle_new_execution_engine_state m
        EngineState.Offline).block_lookups.single_block_requests = [] ∧
      (handle_new_execution_engine_state m
        EngineState.Offline).block_lookups.parent_chains =
        m.block_lookups.parent_chains ∧
      (handle_new_execution_engine_state m
        EngineState.Offline).range_sync_resume_count =
        m.range_sync_resume_count ∧
      (handle_new_execution_engine_state m
        EngineState.Offline).network.execution_engine_state =
        EngineState.Offline ∧
      (handle_new_execution_engine_state m
        EngineState.Offline).network.out_messages =
        m.network.out_messages) ∧
    (∃ msg, should_search_for_block is_synced block_slot head_slot
      peer_connected false = Except.error msg) ∧
    ((handle_new_execution_engine_state m
        EngineState.Offline).network.send_block_for_processing root =
      (Except.error SendErrorProcessor.ProcessorNotAvailable,
        (handle_new_execution_engine_state m EngineState.Offline).network)) ∧
    ((handle_new_execution_engine_state m
        EngineState.Online).range_sync_resume_count =
        m.range_sync_resume_count + 1 ∧
      (handle_new_execution_engine_state m EngineState.Online).block_lookups =
        m.block_lookups ∧
      (handle_new_execution_engine_state m
        EngineState.Online).network.out_messages = m.network.out_messages ∧
      (handle_new_execution_engine_state m
        EngineState.Online).network.forwarded_blocks =
        m.network.forwarded_blocks) := by
  refine ⟨⟨rfl, rfl, rfl, rfl, rfl⟩, ?_, rfl, ⟨rfl, rfl, rfl, rfl⟩⟩
  unfold should_search_for_block
  cases block_slot with
  | none =>
    cases is_synced with
    | false => exact ⟨"not synced", rfl⟩
    | true =>
      cases peer_connected with
      | false => exact ⟨"peer not connected", rfl⟩
      | true => exact ⟨"execution engine offline", rfl⟩
  | some bs =>
    cases is_synced with
    | true =>
      cases peer_connected with
      | false => exact ⟨"peer not connected", rfl⟩
      | true => exact ⟨"execution engine offline", rfl⟩
    | false =>
      by_cases hc : (head_slot ≥ bs ∧
          head_slot - bs > SLOT_IMPORT_TOLERANCE) ∨
          (head_slot < bs ∧ bs - head_slot > SLOT_IMPORT_TOLERANCE)
      · refine ⟨"not synced", ?_⟩
        simp only [if_pos hc]
        rfl
      · cases peer_connected with
        | false =>
          refine ⟨"peer not connected", ?_⟩
          simp only [if_neg hc]
          rfl
        | true =>
          refine ⟨"execution engine offline", ?_⟩
          simp only [if_neg hc]
          rfl

/-- Witness for C7: the conjunction instantiated at the fresh manager
state shows a dropped-lookups transition and the offline refusal. -/
theorem engine_state_transitions_witness :
    (handle_new_execution_engine_state
      { network := SyncNetworkContext.new,
        block_lookups := { single_block_requests := [1, 2, 3],
                           parent_chains := [[5]] },
        range_sync_resume_count := 0 }
      EngineState.Offline).block_lookups.single_block_requests = [] :=
  (engine_state_transitions
    { network := SyncNetworkContext.new,
      block_lookups := { single_block_requests := [1, 2, 3],
                         parent_chains := [[5]] },
      range_sync_resume_count := 0 }
    false none 0 false 0).1.1

/-! ## C2: peer disconnects resolve every request of that peer -/

theorem on_response_rpc_error {K α : Type} [DecidableEq K]
    (m : ActiveRequests K α) (id : K) (e : RPCError) :
    ActiveRequests.on_response m id (RpcEvent.RPCError e) =
      (match alist_lookup m id with
       | none => (none, m)
       | some _ =>
         (some (Except.error (RpcResponseError.RpcError e)),
           alist_remove m id)) := by
  unfold ActiveRequests.on_response
  cases alist_lookup m id <;> rfl

theorem on_single_block_response_rpc_error_none (s : SyncNetworkContext)
    (id : SingleLookupReqId) (peer : PeerId) (e : RPCError)
    (h : alist_lookup s.blocks_by_root_requests id = none) :
    s.on_single_block_response id peer (RpcEvent.RPCError e) = (none, s) := by
  unfold SyncNetworkContext.on_single_block_response
  rw [on_response_rpc_error, h]
  rfl

theorem on_single_block_response_rpc_error_some (s : SyncNetworkContext)
    (id : SingleLookupReqId) (peer : PeerId) (e : RPCError)
    (req : ActiveRequest SignedBeaconBlock)
    (h : alist_lookup s.blocks_by_root_requests id = some req) :
    s.on_single_block_response id peer (RpcEvent.RPCError e) =
      (some (Except.error (RpcResponseError.RpcError e)),
        { s with blocks_by_root_requests :=
            alist_remove s.blocks_by_root_requests id }) := by
  unfold SyncNetworkContext.on_single_block_response
  rw [on_response_rpc_error, h]
  rfl

theorem on_single_blob_response_rpc_error_none (max_blobs : Nat)
    (s : SyncNetworkContext) (id : SingleLookupReqId) (peer : PeerId)
    (e : RPCError)
    (h : alist_lookup s.blobs_by_root_requests id = none) :
    SyncNetworkContext.on_single_blob_response max_blobs s id peer
      (RpcEvent.RPCError e) = (none, s) := by
  unfold SyncNetworkContext.on_single_blob_response
  rw [on_response_rpc_error, h]
  rfl

theorem on_single_blob_response_rpc_error_some (max_blobs : Nat)
    (s : SyncNetworkContext) (id : SingleLookupReqId) (peer : PeerId)
    (e : RPCError) (req : ActiveRequest BlobSidecar)
    (h : alist_lookup s.blobs_by_root_requests id = some req) :
    SyncNetworkContext.on_single_blob_response max_blobs s id peer
      (RpcEvent.RPCError e) =
      (some (Except.error (RpcResponseError.RpcError e)),
        { s with blobs_by_root_requests :=
            alist_remove s.blobs_by_root_requests id }) := by
  unfold SyncNetworkContext.on_single_blob_response
  rw [on_response_rpc_error, h]
  rfl

theorem on_data_columns_by_root_response_rpc_error_none
    (s : SyncNetworkContext) (id : DataColumnsByRootRequestId)
    (peer : PeerId) (e : RPCError)
    (h : alist_lookup s.data_columns_by_root_requests id = none) :
    s.on_data_columns_by_root_response id peer (RpcEvent.RPCError e) =
      (none, s) := by
  unfold SyncNetworkContext.on_data_columns_by_root_response
  rw [on_response_rpc_error, h]
  rfl

theorem on_data_columns_by_root_response_rpc_error_some
    (s : SyncNetworkContext) (id : DataColumnsByRootRequestId)
    (peer : PeerId) (e : RPCError) (req : ActiveRequest DataColumnSidecar)
    (h : alist_lookup s.data_columns_by_root_requests id = some req) :
    s.on_data_columns_by_root_response id peer (RpcEvent.RPCError e) =
      (some (Except.error (RpcResponseError.RpcError e)),
        { s with data_columns_by_root_requests :=
            alist_remove s.data_columns_by_root_requests id }) := by
  unfold SyncNetworkContext.on_data_columns_by_root_response
  rw [on_response_rpc_error, h]
  rfl

theorem on_blocks_by_range_response_rpc_error_none (s : SyncNetworkContext)
    (id : BlocksByRangeRequestId) (peer : PeerId) (e : RPCError)
    (h : alist_lookup s.blocks_by_range_requests id = none) :
    s.on_blocks_by_range_response id peer (RpcEvent.RPCError e) =
      (none, s) := by
  unfold SyncNetworkContext.on_blocks_by_range_response
  rw [on_response_rpc_error, h]
  rfl

theorem on_blocks_by_range_response_rpc_error_some (s : SyncNetworkContext)
    (id : BlocksByRangeRequestId) (peer : PeerId) (e : RPCError)
    (req : ActiveRequest SignedBeaconBlock)
    (h : alist_lookup s.blocks_by_range_requests id = some req) :
    s.on_blocks_by_range_response id peer (RpcEvent.RPCError e) =
      (some (Except.error (RpcResponseError.RpcError e)),
        { s with blocks_by_range_requests :=
            alist_remove s.blocks_by_range_requests id }) := by
  unfold SyncNetworkContext.on_blocks_by_range_response
  rw [on_response_rpc_error, h]
  rfl

theorem on_blobs_by_range_response_rpc_error_none (s : SyncNetworkContext)
    (id : BlobsByRangeRequestId) (peer : PeerId) (e : RPCError)
    (h : alist_lookup s.blobs_by_range_requests id = none) :
    s.on_blobs_by_range_response id peer (RpcEvent.RPCError e) =
      (none, s) := by
  unfold SyncNetworkContext.on_blobs_by_range_response
  rw [on_response_rpc_error, h]
  rfl

theorem on_blobs_by_range_response_rpc_error_some (s : SyncNetworkContext)
    (id : BlobsByRangeRequestId) (peer : PeerId) (e : RPCError)
    (req : ActiveRequest BlobSidecar)
    (h : alist_lookup s.blobs_by_range_requests id = some req) :
    s.on_blobs_by_range_response id peer (RpcEvent.RPCError e) =
      (some (Except.error (RpcResponseError.RpcError e)),
        { s with blobs_by_range_requests :=
            alist_remove s.blobs_by_range_requests id }) := by
  unfold SyncNetworkContext.on_blobs_by_range_response
  rw [on_response_rpc_error, h]
  rfl

theorem on_data_columns_by_range_response_rpc_error_none
    (s : SyncNetworkContext) (id : DataColumnsByRangeRequestId)
    (peer : PeerId) (e : RPCError)
    (h : alist_lookup s.data_columns_by_range_requests id = none) :
    s.on_data_columns_by_range_response id peer (RpcEvent.RPCError e) =
      (none, s) := by
  unfold SyncNetworkContext.on_data_columns_by_range_response
  rw [on_response_rpc_error, h]
  rfl

theorem on_data_columns_by_range_response_rpc_error_some
    (s : SyncNetworkContext) (id : DataColumnsByRangeRequestId)
    (peer : PeerId) (e : RPCError) (req : ActiveRequest DataColumnSidecar)
    (h : alist_lookup s.data_columns_by_range_requests id = some req) :
    s.on_data_columns_by_range_response id peer (RpcEvent.RPCError e) =
      (some (Except.error (RpcResponseError.RpcError e)),
        { s with data_columns_by_range_requests :=
            alist_remove s.data_columns_by_range_requests id }) := by
  unfold SyncNetworkContext.on_data_columns_by_range_response
  rw [on_response_rpc_error, h]
  rfl

theorem mem_active_requests_of_peer {K α : Type} (m : ActiveRequests K α)
    (tp : PeerId) (k : K) :
    k ∈ ActiveRequests.active_requests_of_peer m tp ↔
      ∃ req, (k, req) ∈ m ∧ req.peer_id = tp := by
  unfold ActiveRequests.active_requests_of_peer
  simp only [List.mem_map, List.mem_filter]
  constructor
  · rintro ⟨p, ⟨hp, hpeer⟩, hk⟩
    refine ⟨p.2, ?_, by simpa using hpeer⟩
    rw [← hk]
    exact hp
  · rintro ⟨req, hm, hp⟩
    exact ⟨(k, req), ⟨hm, by simpa using hp⟩, rfl⟩

theorem mem_active_requests_of_peer_remove {K α : Type} [DecidableEq K]
    (m : ActiveRequests K α) (tp : PeerId) (id k : K) :
    k ∈ ActiveRequests.active_requests_of_peer (alist_remove m id) tp ↔
      (k ∈ ActiveRequests.active_requests_of_peer m tp ∧ k ≠ id) := by
  rw [mem_active_requests_of_peer, mem_active_requests_of_peer]
  constructor
  · rintro ⟨req, hm, hp⟩
    rw [alist_remove, List.mem_filter] at hm
    exact ⟨⟨req, hm.1, hp⟩, by simpa using hm.2⟩
  · rintro ⟨⟨req, hm, hp⟩, hne⟩
    refine ⟨req, ?_, hp⟩
    rw [alist_remove, List.mem_filter]
    exact ⟨hm, by simpa using hne⟩

theorem active_requests_of_peer_mem {K α : Type} (m : ActiveRequests K α)
    (tp : PeerId) (k : K)
    (h : k ∈ ActiveRequests.active_requests_of_peer m tp) :
    ∃ req, (k, req) ∈ m := by
  obtain ⟨req, hm, -⟩ := (mem_active_requests_of_peer m tp k).mp h
  exact ⟨req, hm⟩

/-- Membership in `peer_disconnected` by request category. -/
theorem mem_pd_iff (s : SyncNetworkContext) (tp : PeerId)
    (x : SyncRequestId) :
    x ∈ s.peer_disconnected tp ↔
      (match x with
       | SyncRequestId.SingleBlock k =>
         k ∈ ActiveRequests.active_requests_of_peer
           s.blocks_by_root_requests tp
       | SyncRequestId.SingleBlob k =>
         k ∈ ActiveRequests.active_requests_of_peer
           s.blobs_by_root_requests tp
       | SyncRequestId.DataColumnsByRoot k =>
         k ∈ ActiveRequests.active_requests_of_peer
           s.data_columns_by_root_requests tp
       | SyncRequestId.BlocksByRange k =>
         k ∈ ActiveRequests.active_requests_of_peer
           s.blocks_by_range_requests tp
       | SyncRequestId.BlobsByRange k =>
         k ∈ ActiveRequests.active_requests_of_peer
           s.blobs_by_range_requests tp
       | SyncRequestId.DataColumnsByRange k =>
         k ∈ ActiveRequests.active_requests_of_peer
           s.data_columns_by_range_requests tp) := by
  cases x <;>
    (unfold SyncNetworkContext.peer_disconnected
     simp [List.mem_append, List.mem_map])

/-- One `inject_error` step removes at most its own id from the
peer-attributed request set and never adds one, provided the downstream
routing does not create requests for this peer. -/
theorem inject_error_mem (route : ResponseRouter) (max_blobs : Nat)
    (st : SyncNetworkContext) (peer : PeerId) (rid x : SyncRequestId)
    (e : RPCError)
    (hroute : ∀ rid0 c x0,
      x0 ∈ SyncNetworkContext.peer_disconnected (route rid0 c) peer →
      x0 ∈ c.peer_disconnected peer)
    (hx : x ∈ (inject_error route max_blobs st peer rid
      e).peer_disconnected peer) :
    x ∈ st.peer_disconnected peer ∧ x ≠ rid := by
  cases rid with
  | SingleBlock id =>
    cases hl : alist_lookup st.blocks_by_root_requests id with
    | none =>
      have hinj : inject_error route max_blobs st peer
          (SyncRequestId.SingleBlock id) e = st := by
        simp only [inject_error,
          on_single_block_response_rpc_error_none st id peer e hl]
      rw [hinj] at hx
      refine ⟨hx, ?_⟩
      intro hceq
      rw [hceq, mem_pd_iff] at hx
      obtain ⟨req, hm⟩ := active_requests_of_peer_mem _ _ _ hx
      exact (alist_lookup_eq_none_iff _ _).mp hl req hm
    | some req0 =>
      have hinj : inject_error route max_blobs st peer
          (SyncRequestId.SingleBlock id) e =
          route (SyncRequestId.SingleBlock id)
            { st with blocks_by_root_requests :=
                alist_remove st.blocks_by_root_requests id } := by
        simp only [inject_error,
          on_single_block_response_rpc_error_some st id peer e req0 hl]
      rw [hinj] at hx
      have hx2 := hroute _ _ _ hx
      cases x with
      | SingleBlock k =>
        rw [mem_pd_iff] at hx2
        dsimp only at hx2
        rw [mem_active_requests_of_peer_remove] at hx2
        exact ⟨(mem_pd_iff st peer _).mpr hx2.1, by simp [hx2.2]⟩
      | SingleBlob k =>
        rw [mem_pd_iff] at hx2
        exact ⟨(mem_pd_iff st peer _).mpr hx2, by simp⟩
      | DataColumnsByRoot k =>
        rw [mem_pd_iff] at hx2
        exact ⟨(mem_pd_iff st peer _).mpr hx2, by simp⟩
      | BlocksByRange k =>
        rw [mem_pd_iff] at hx2
        exact ⟨(mem_pd_iff st peer _).mpr hx2, by simp⟩
      | BlobsByRange k =>
        rw [mem_pd_iff] at hx2
        exact ⟨(mem_pd_iff st peer _).mpr hx2, by simp⟩
      | DataColumnsByRange k =>
        rw [mem_pd_iff] at hx2
        exact ⟨(mem_pd_iff st peer _).mpr hx2, by simp⟩
  | SingleBlob id =>
    cases hl : alist_lookup st.blobs_by_root_requests id with
    | none =>
      have hinj : inject_error route max_blobs st peer
          (SyncRequestId.SingleBlob id) e = st := by
        simp only [inject_error,
          on_single_blob_response_rpc_error_none max_blobs st id peer e hl]
      rw [hinj] at hx
      refine ⟨hx, ?_⟩
      intro hceq
      rw [hceq, mem_pd_iff] at hx
      obtain ⟨req, hm⟩ := active_requests_of_peer_mem _ _ _ hx
      exact (alist_lookup_eq_none_iff _ _).mp hl req hm
    | some req0 =>
      have hinj : inject_error route max_blobs st peer
          (SyncRequestId.SingleBlob id) e =
          route (SyncRequestId.SingleBlob id)
            { st with blobs_by_root_requests :=
                alist_remove st.blobs_by_root_requests id } := by
        simp only [inject_error,
          on_single_blob_response_rpc_error_some max_blobs st id peer e req0
            hl]
      rw [hinj] at hx
      have hx2 := hroute _ _ _ hx
      cases x with
      | SingleBlock k =>
        rw [mem_pd_iff] at hx2
        exact ⟨(mem_pd_iff st peer _).mpr hx2, by simp⟩
      | SingleBlob k =>
        rw [mem_pd_iff] at hx2
        dsimp only at hx2
        rw [mem_active_requests_of_peer_remove] at hx2
        exact ⟨(mem_pd_iff st peer _).mpr hx2.1, by simp [hx2.2]⟩
      | DataColumnsByRoot k =>
        rw [mem_pd_iff] at hx2
        exact ⟨(mem_pd_iff st peer _).mpr hx2, by simp⟩
      | BlocksByRange k =>
        rw [mem_pd_iff] at hx2
        exact ⟨(mem_pd_iff st peer _).mpr hx2, by simp⟩
      | BlobsByRange k =>
        rw [mem_pd_iff] at hx2
        exact ⟨(mem_pd_iff st peer _).mpr hx2, by simp⟩
      | DataColumnsByRange k =>
        rw [mem_pd_iff] at hx2
        exact ⟨(mem_pd_iff st peer _).mpr hx2, by simp⟩
  | DataColumnsByRoot id =>
    cases hl : alist_lookup st.data_columns_by_root_requests id with
    | none =>
      have hinj : inject_error route max_blobs st peer
          (SyncRequestId.DataColumnsByRoot id) e = st := by
        simp only [inject_error,
          on_data_columns_by_root_response_rpc_error_none st id peer e hl]
      rw [hinj] at hx
      refine ⟨hx, ?_⟩
      intro hceq
      rw [hceq, mem_pd_iff] at hx
      obtain ⟨req, hm⟩ := active_requests_of_peer_mem _ _ _ hx
      exact (alist_lookup_eq_none_iff _ _).mp hl req hm
    | some req0 =>
      have hinj : inject_error route max_blobs st peer
          (SyncRequestId.DataColumnsByRoot id) e =
          route (SyncRequestId.DataColumnsByRoot id)
            { st with data_columns_by_root_requests :=
                alist_remove st.data_columns_by_root_requests id } := by
        simp only [inject_error,
          on_data_columns_by_root_response_rpc_error_some st id peer e req0
            hl]
      rw [hinj] at hx
      have hx2 := hroute _ _ _ hx
      cases x with
      | SingleBlock k =>
        rw [mem_pd_iff] at hx2
        exact ⟨(mem_pd_iff st peer _).mpr hx2, by simp⟩
      | SingleBlob k =>
        rw [mem_pd_iff] at hx2
        exact ⟨(mem_pd_iff st peer _).mpr hx2, by simp⟩
      | DataColumnsByRoot k =>
        rw [mem_pd_iff] at hx2
        dsimp only at hx2
        rw [mem_active_requests_of_peer_remove] at hx2
        exact ⟨(mem_pd_iff st peer _).mpr hx2.1, by simp [hx2.2]⟩
      | BlocksByRange k =>
        rw [mem_pd_iff] at hx2
        exact ⟨(mem_pd_iff st peer _).mpr hx2, by simp⟩
      | BlobsByRange k =>
        rw [mem_pd_iff] at hx2
        exact ⟨(mem_pd_iff st peer _).mpr hx2, by simp⟩
      | DataColumnsByRange k =>
        rw [mem_pd_iff] at hx2
        exact ⟨(mem_pd_iff st peer _).mpr hx2, by simp⟩
  | BlocksByRange id =>
    cases hl : alist_lookup st.blocks_by_range_requests id with
    | none =>
      have hinj : inject_error route max_blobs st peer
          (SyncRequestId.BlocksByRange id) e = st := by
        simp only [inject_error,
          on_blocks_by_range_response_rpc_error_none st id peer e hl]
      rw [hinj] at hx
      refine ⟨hx, ?_⟩
      intro hceq
      rw [hceq, mem_pd_iff] at hx
      obtain ⟨req, hm⟩ := active_requests_of_peer_mem _ _ _ hx
      exact (alist_lookup_eq_none_iff _ _).mp hl req hm
    | some req0 =>
      have hinj : inject_error route max_blobs st peer
          (SyncRequestId.BlocksByRange id) e =
          route (SyncRequestId.BlocksByRange id)
            { st with blocks_by_range_requests :=
                alist_remove st.blocks_by_range_requests id } := by
        simp only [inject_error,
          on_blocks_by_range_response_rpc_error_some st id peer e req0 hl]
      rw [hinj] at hx
      have hx2 := hroute _ _ _ hx
      cases x with
      | SingleBlock k =>
        rw [mem_pd_iff] at hx2
        exact ⟨(mem_pd_iff st peer _).mpr hx2, by simp⟩
      | SingleBlob k =>
        rw [mem_pd_iff] at hx2
        exact ⟨(mem_pd_iff st peer _).mpr hx2, by simp⟩
      | DataColumnsByRoot k =>
        rw [mem_pd_iff] at hx2
        exact ⟨(mem_pd_iff st peer _).mpr hx2, by simp⟩
      | BlocksByRange k =>
        rw [mem_pd_iff] at hx2
        dsimp only at hx2
        rw [mem_active_requests_of_peer_remove] at hx2
        exact ⟨(mem_pd_iff st peer _).mpr hx2.1, by simp [hx2.2]⟩
      | BlobsByRange k =>
        rw [mem_pd_iff] at hx2
        exact ⟨(mem_pd_iff st peer _).mpr hx2, by simp⟩
      | DataColumnsByRange k =>
        rw [mem_pd_iff] at hx2
        exact ⟨(mem_pd_iff st peer _).mpr hx2, by simp⟩
  | BlobsByRange id =>
    cases hl : alist_lookup st.blobs_by_range_requests id with
    | none =>
      have hinj : inject_error route max_blobs st peer
          (SyncRequestId.BlobsByRange id) e = st := by
        simp only [inject_error,
          on_blobs_by_range_response_rpc_error_none st id peer e hl]
      rw [hinj] at hx
      refine ⟨hx, ?_⟩
      intro hceq
      rw [hceq, mem_pd_iff] at hx
      obtain ⟨req, hm⟩ := active_requests_of_peer_mem _ _ _ hx
      exact (alist_lookup_eq_none_iff _ _).mp hl req hm
    | some req0 =>
      have hinj : inject_error route max_blobs st peer
          (SyncRequestId.BlobsByRange id) e =
          route (SyncRequestId.BlobsByRange id)
            { st with blobs_by_range_requests :=
                alist_remove st.blobs_by_range_requests id } := by
        simp only [inject_error,
          on_blobs_by_range_response_rpc_error_some st id peer e req0 hl]
      rw [hinj] at hx
      have hx2 := hroute _ _ _ hx
      cases x with
      | SingleBlock k =>
        rw [mem_pd_iff] at hx2
        exact ⟨(mem_pd_iff st peer _).mpr hx2, by simp⟩
      | SingleBlob k =>
        rw [mem_pd_iff] at hx2
        exact ⟨(mem_pd_iff st peer _).mpr hx2, by simp⟩
      | DataColumnsByRoot k =>
        rw [mem_pd_iff] at hx2
        exact ⟨(mem_pd_iff st peer _).mpr hx2, by simp⟩
      | BlocksByRange k =>
        rw [mem_pd_iff] at hx2
        exact ⟨(mem_pd_iff st peer _).mpr hx2, by simp⟩
      | BlobsByRange k =>
        rw [mem_pd_iff] at hx2
        dsimp only at hx2
        rw [mem_active_requests_of_peer_remove] at hx2
        exact ⟨(mem_pd_iff st peer _).mpr hx2.1, by simp [hx2.2]⟩
      | DataColumnsByRange k =>
        rw [mem_pd_iff] at hx2
        exact ⟨(mem_pd_iff st peer _).mpr hx2, by simp⟩
  | DataColumnsByRange id =>
    cases hl : alist_lookup st.data_columns_by_range_requests id with
    | none =>
      have hinj : inject_error route max_blobs st peer
          (SyncRequestId.DataColumnsByRange id) e = st := by
        simp only [inject_error,
          on_data_columns_by_range_response_rpc_error_none st id peer e hl]
      rw [hinj] at hx
      refine ⟨hx, ?_⟩
      intro hceq
      rw [hceq, mem_pd_iff] at hx
      obtain ⟨req, hm⟩ := active_requests_of_peer_mem _ _ _ hx
      exact (alist_lookup_eq_none_iff _ _).mp hl req hm
    | some req0 =>
      have hinj : inject_error route max_blobs st peer
          (SyncRequestId.DataColumnsByRange id) e =
          route (SyncRequestId.DataColumnsByRange id)
            { st with data_columns_by_range_requests :=
                alist_remove st.data_columns_by_range_requests id } := by
        simp only [inject_error,
          on_data_columns_by_range_response_rpc_error_some st id peer e req0
            hl]
      rw [hinj] at hx
      have hx2 := hroute _ _ _ hx
      cases x with
      | SingleBlock k =>
        rw [mem_pd_iff] at hx2
        exact ⟨(mem_pd_iff st peer _).mpr hx2, by simp⟩
      | SingleBlob k =>
        rw [mem_pd_iff] at hx2
        exact ⟨(mem_pd_iff st peer _).mpr hx2, by simp⟩
      | DataColumnsByRoot k =>
        rw [mem_pd_iff] at hx2
        exact ⟨(mem_pd_iff st peer _).mpr hx2, by simp⟩
      | BlocksByRange k =>
        rw [mem_pd_iff] at hx2
        exact ⟨(mem_pd_iff st peer _).mpr hx2, by simp⟩
      | BlobsByRange k =>
        rw [mem_pd_iff] at hx2
        exact ⟨(mem_pd_iff st peer _).mpr hx2, by simp⟩
      | DataColumnsByRange k =>
        rw [mem_pd_iff] at hx2
        dsimp only at hx2
        rw [mem_active_requests_of_peer_remove] at hx2
        exact ⟨(mem_pd_iff st peer _).mpr hx2.1, by simp [hx2.2]⟩

/-- Folding `inject_error` over a list of ids leaves only peer-attributed
requests that were already present and whose ids were not processed. -/
theorem foldl_inject_error_mem (route : ResponseRouter) (max_blobs : Nat)
    (peer : PeerId)
    (hroute : ∀ rid0 c x0,
      x0 ∈ SyncNetworkContext.peer_disconnected (route rid0 c) peer →
      x0 ∈ c.peer_disconnected peer) :
    ∀ (L : List SyncRequestId) (st : SyncNetworkContext) (x : SyncRequestId),
      x ∈ (L.foldl (fun c rid => inject_error route max_blobs c peer rid
        RPCError.Disconnected) st).peer_disconnected peer →
      x ∈ st.peer_disconnected peer ∧ x ∉ L := by
  intro L
  induction L with
  | nil =>
    intro st x hx
    exact ⟨hx, by simp⟩
  | cons rid rest ih =>
    intro st x hx
    rw [List.foldl_cons] at hx
    have h1 := ih (inject_error route max_blobs st peer rid
      RPCError.Disconnected) x hx
    have h2 := inject_error_mem route max_blobs st peer rid x
      RPCError.Disconnected hroute h1.1
    refine ⟨h2.1, ?_⟩
    rw [List.mem_cons, not_or]
    exact ⟨h2.2, h1.2⟩

/-- C2: `peer_disconnected(peer)` returns the ids of all active blocks /
blobs / data-columns by-root and by-range requests whose target peer is the
disconnected peer; the manager injects an `RPCError::Disconnected` for each
returned id within the same event-processing step; and — provided the
downstream components do not create new requests for the disconnected peer
— no request attributed to that peer remains unresolved after the
disconnect is handled. -/
theorem peer_disconnect_resolves_all (route : ResponseRouter)
    (cleanup : SyncNetworkContext → SyncNetworkContext) (max_blobs : Nat)
    (s : SyncNetworkContext) (peer : PeerId)
    (hroute : ∀ rid c x,
      x ∈ SyncNetworkContext.peer_disconnected (route rid c) peer →
      x ∈ c.peer_disconnected peer)
    (hcleanup : ∀ c x,
      x ∈ SyncNetworkContext.peer_disconnected (cleanup c) peer →
      x ∈ c.peer_disconnected peer) :
    (∀ k, SyncRequestId.SingleBlock k ∈ s.peer_disconnected peer ↔
      ∃ req, (k, req) ∈ s.blocks_by_root_requests ∧ req.peer_id = peer) ∧
    (∀ k, SyncRequestId.SingleBlob k ∈ s.peer_disconnected peer ↔
      ∃ req, (k, req) ∈ s.blobs_by_root_requests ∧ req.peer_id = peer) ∧
    (∀ k, SyncRequestId.DataColumnsByRoot k ∈ s.peer_disconnected peer ↔
      ∃ req, (k, req) ∈ s.data_columns_by_root_requests ∧
        req.peer_id = peer) ∧
    (∀ k, SyncRequestId.BlocksByRange k ∈ s.peer_disconnected peer ↔
      ∃ req, (k, req) ∈ s.blocks_by_range_requests ∧ req.peer_id = peer) ∧
    (∀ k, SyncRequestId.BlobsByRange k ∈ s.peer_disconnected peer ↔
      ∃ req, (k, req) ∈ s.blobs_by_range_requests ∧ req.peer_id = peer) ∧
    (∀ k, SyncRequestId.DataColumnsByRange k ∈ s.peer_disconnected peer ↔
      ∃ req, (k, req) ∈ s.data_columns_by_range_requests ∧
        req.peer_id = peer) ∧
    ((peer_disconnect route cleanup max_blobs s peer).1 =
      (s.peer_disconnected peer).map
        (fun id => (id, RPCError.Disconnected))) ∧
    ((peer_disconnect route cleanup max_blobs s
      peer).2.peer_disconnected peer = []) := by
  refine ⟨?_, ?_, ?_, ?_, ?_, ?_, rfl, ?_⟩
  · intro k
    exact (mem_pd_iff s peer _).trans (mem_active_requests_of_peer _ _ _)
  · intro k
    exact (mem_pd_iff s peer _).trans (mem_active_requests_of_peer _ _ _)
  · intro k
    exact (mem_pd_iff s peer _).trans (mem_active_requests_of_peer _ _ _)
  · intro k
    exact (mem_pd_iff s peer _).trans (mem_active_requests_of_peer _ _ _)
  · intro k
    exact (mem_pd_iff s peer _).trans (mem_active_requests_of_peer _ _ _)
  · intro k
    exact (mem_pd_iff s peer _).trans (mem_active_requests_of_peer _ _ _)
  · rw [List.eq_nil_iff_forall_not_mem]
    intro x hx
    have h1 := hcleanup _ x hx
    have h2 := foldl_inject_error_mem route max_blobs peer hroute
      (s.peer_disconnected peer) s x h1
    exact h2.2 h2.1

/-- Witness for C2: on a context with one blocks-by-root request of peer 5,
disconnecting peer 5 (identity routing and cleanup) leaves no request
attributed to that peer. -/
theorem peer_disconnect_resolves_all_witness :
    (peer_disconnect (fun _ c => c) (fun c => c) 0
      { SyncNetworkContext.new with blocks_by_root_requests :=
          [({ lookup_id := 0, req_id := 0 },
            { peer_id := 5, expect_max_responses := true, max_items := 1,
              items := [] })] }
      5).2.peer_disconnected 5 = [] :=
  (peer_disconnect_resolves_all (fun _ c => c) (fun c => c) 0
    { SyncNetworkContext.new with blocks_by_root_requests :=
        [({ lookup_id := 0, req_id := 0 },
          { peer_id := 5, expect_max_responses := true, max_items := 1,
            items := [] })] }
    5 (fun _ _ _ h => h)
    (fun _ _ h => h)).2.2.2.2.2.2.2

/-! ## C10: a custody request is tracked iff it is still pending -/

theorem on_custody_by_root_response_some_eq
    (step : SyncNetworkContext.CustodyStep) (s : SyncNetworkContext)
    (cid : CustodyId) (request : ActiveCustodyRequest)
    (h : alist_lookup s.custody_by_root_requests cid.requester =
      some request) :
    SyncNetworkContext.on_custody_by_root_response step s cid =
      SyncNetworkContext.handle_custody_by_root_result
        (step request { s with custody_by_root_requests := alist_remove s.custody_by_root_requests cid.requester }).2.2
        cid.requester
        (step request { s with custody_by_root_requests := alist_remove s.custody_by_root_requests cid.requester }).2.1
        (step request { s with custody_by_root_requests := alist_remove s.custody_by_root_requests cid.requester }).1 := by
  unfold SyncNetworkContext.on_custody_by_root_response
  rw [h]

theorem custody_continue_step_some_eq
    (step : SyncNetworkContext.CustodyStep)
    (acc : List (CustodyRequester × CustodyByRootResult) ×
      SyncNetworkContext)
    (id : CustodyRequester) (request : ActiveCustodyRequest)
    (h : alist_lookup acc.2.custody_by_root_requests id = some request) :
    SyncNetworkContext.custody_continue_step step acc id =
      (match SyncNetworkContext.handle_custody_by_root_result
          (step request { acc.2 with custody_by_root_requests := alist_remove acc.2.custody_by_root_requests id }).2.2
          id
          (step request { acc.2 with custody_by_root_requests := alist_remove acc.2.custody_by_root_requests id }).2.1
          (step request { acc.2 with custody_by_root_requests := alist_remove acc.2.custody_by_root_requests id }).1 with
       | (some result, s2) => (acc.1 ++ [(id, result)], s2)
       | (none, s2) => (acc.1, s2)) := by
  unfold SyncNetworkContext.custody_continue_step
  rw [h]

theorem custody_continue_step_lookup_ne
    (step : SyncNetworkContext.CustodyStep)
    (hpres : ∀ req c, ((step req c).2.2).custody_by_root_requests =
      c.custody_by_root_requests)
    (acc : List (CustodyRequester × CustodyByRootResult) ×
      SyncNetworkContext)
    (id k : CustodyRequester) (hk : k ≠ id) :
    alist_lookup (SyncNetworkContext.custody_continue_step step acc
      id).2.custody_by_root_requests k =
      alist_lookup acc.2.custody_by_root_requests k := by
  cases hl : alist_lookup acc.2.custody_by_root_requests id with
  | none =>
    rw [show SyncNetworkContext.custody_continue_step step acc id = acc from
      by unfold SyncNetworkContext.custody_continue_step; rw [hl]]
  | some request =>
    rw [custody_continue_step_some_eq step acc id request hl]
    unfold SyncNetworkContext.handle_custody_by_root_result
    cases hres : (step request { acc.2 with custody_by_root_requests := alist_remove acc.2.custody_by_root_requests id }).1 with
    | ok o =>
      cases o with
      | some value =>
        show alist_lookup (step request { acc.2 with custody_by_root_requests := alist_remove acc.2.custody_by_root_requests id }).2.2.custody_by_root_requests k = _
        rw [hpres]
        exact alist_lookup_remove_ne _ _ _ hk
      | none =>
        show alist_lookup (alist_insert (step request { acc.2 with custody_by_root_requests := alist_remove acc.2.custody_by_root_requests id }).2.2.custody_by_root_requests id (step request { acc.2 with custody_by_root_requests := alist_remove acc.2.custody_by_root_requests id }).2.1) k = _
        rw [alist_lookup_insert_ne _ _ _ _ hk, hpres]
        exact alist_lookup_remove_ne _ _ _ hk
    | error e =>
      show alist_lookup (step request { acc.2 with custody_by_root_requests := alist_remove acc.2.custody_by_root_requests id }).2.2.custody_by_root_requests k = _
      rw [hpres]
      exact alist_lookup_remove_ne _ _ _ hk

theorem custody_continue_step_results_ne
    (step : SyncNetworkContext.CustodyStep)
    (acc : List (CustodyRequester × CustodyByRootResult) ×
      SyncNetworkContext)
    (id k : CustodyRequester) (r : CustodyByRootResult) (hk : k ≠ id) :
    ((k, r) ∈ (SyncNetworkContext.custody_continue_step step acc id).1 ↔
      (k, r) ∈ acc.1) := by
  cases hl : alist_lookup acc.2.custody_by_root_requests id with
  | none =>
    rw [show SyncNetworkContext.custody_continue_step step acc id = acc from
      by unfold SyncNetworkContext.custody_continue_step; rw [hl]]
  | some request =>
    rw [custody_continue_step_some_eq step acc id request hl]
    unfold SyncNetworkContext.handle_custody_by_root_result
    cases hres : (step request { acc.2 with custody_by_root_requests := alist_remove acc.2.custody_by_root_requests id }).1 with
    | ok o =>
      cases o with
      | some value =>
        show (k, r) ∈ acc.1 ++ [(id, Except.ok value)] ↔ (k, r) ∈ acc.1
        simp [hk]
      | none => exact Iff.rfl
    | error e =>
      show (k, r) ∈ acc.1 ++
        [(id, Except.error (RpcResponseError.CustodyRequestError e))] ↔
        (k, r) ∈ acc.1
      simp [hk]

theorem custody_continue_step_present
    (step : SyncNetworkContext.CustodyStep)
    (hpres : ∀ req c, ((step req c).2.2).custody_by_root_requests =
      c.custody_by_root_requests)
    (acc : List (CustodyRequester × CustodyByRootResult) ×
      SyncNetworkContext)
    (id : CustodyRequester) (request : ActiveCustodyRequest)
    (hl : alist_lookup acc.2.custody_by_root_requests id = some request) :
    (∃ res, (SyncNetworkContext.custody_continue_step step acc id).1 =
        acc.1 ++ [(id, res)] ∧
      alist_lookup (SyncNetworkContext.custody_continue_step step acc
        id).2.custody_by_root_requests id = none) ∨
    ((SyncNetworkContext.custody_continue_step step acc id).1 = acc.1 ∧
      ∃ req', alist_lookup (SyncNetworkContext.custody_continue_step step
        acc id).2.custody_by_root_requests id = some req') := by
  rw [custody_continue_step_some_eq step acc id request hl]
  unfold SyncNetworkContext.handle_custody_by_root_result
  cases hres : (step request { acc.2 with custody_by_root_requests := alist_remove acc.2.custody_by_root_requests id }).1 with
  | ok o =>
    cases o with
    | some value =>
      left
      refine ⟨Except.ok value, rfl, ?_⟩
      show alist_lookup (step request { acc.2 with custody_by_root_requests := alist_remove acc.2.custody_by_root_requests id }).2.2.custody_by_root_requests id = none
      rw [hpres]
      exact alist_lookup_remove_self _ _
    | none =>
      right
      refine ⟨rfl, ?_, ?_⟩
      · exact (step request { acc.2 with custody_by_root_requests := alist_remove acc.2.custody_by_root_requests id }).2.1
      · exact alist_lookup_insert_self _ _ _
  | error e =>
    left
    refine ⟨Except.error (RpcResponseError.CustodyRequestError e), rfl, ?_⟩
    show alist_lookup (step request { acc.2 with custody_by_root_requests := alist_remove acc.2.custody_by_root_requests id }).2.2.custody_by_root_requests id = none
    rw [hpres]
    exact alist_lookup_remove_self _ _

theorem custody_fold_untouched (step : SyncNetworkContext.CustodyStep)
    (hpres : ∀ req c, ((step req c).2.2).custody_by_root_requests =
      c.custody_by_root_requests) :
    ∀ (L : List CustodyRequester)
      (acc : List (CustodyRequester × CustodyByRootResult) ×
        SyncNetworkContext)
      (k : CustodyRequester) (r : CustodyByRootResult),
      k ∉ L →
      alist_lookup (L.foldl (SyncNetworkContext.custody_continue_step step)
        acc).2.custody_by_root_requests k =
        alist_lookup acc.2.custody_by_root_requests k ∧
      ((k, r) ∈ (L.foldl (SyncNetworkContext.custody_continue_step step)
        acc).1 ↔ (k, r) ∈ acc.1) := by
  intro L
  induction L with
  | nil =>
    intro acc k r hk
    exact ⟨rfl, Iff.rfl⟩
  | cons rid rest ih =>
    intro acc k r hk
    rw [List.foldl_cons]
    have hk1 : k ≠ rid := fun h => hk (h ▸ List.mem_cons_self rid rest)
    have hk2 : k ∉ rest := fun h => hk (List.mem_cons_of_mem _ h)
    obtain ⟨ihl, ihm⟩ :=
      ih (SyncNetworkContext.custody_continue_step step acc rid) k r hk2
    exact ⟨ihl.trans (custody_continue_step_lookup_ne step hpres acc rid k
        hk1),
      ihm.trans (custody_continue_step_results_ne step acc rid k r hk1)⟩

theorem custody_fold_processed (step : SyncNetworkContext.CustodyStep)
    (hpres : ∀ req c, ((step req c).2.2).custody_by_root_requests =
      c.custody_by_root_requests) :
    ∀ (L : List CustodyRequester)
      (acc : List (CustodyRequester × CustodyByRootResult) ×
        SyncNetworkContext)
      (id : CustodyRequester),
      L.Nodup → id ∈ L →
      (∃ v, alist_lookup acc.2.custody_by_root_requests id = some v) →
      (∀ r, (id, r) ∉ acc.1) →
      ((∃ res, (id, res) ∈ (L.foldl
          (SyncNetworkContext.custody_continue_step step) acc).1) ∧
        alist_lookup (L.foldl (SyncNetworkContext.custody_continue_step
          step) acc).2.custody_by_root_requests id = none) ∨
      ((∀ res, (id, res) ∉ (L.foldl
          (SyncNetworkContext.custody_continue_step step) acc).1) ∧
        ∃ req', alist_lookup (L.foldl
          (SyncNetworkContext.custody_continue_step step)
          acc).2.custody_by_root_requests id = some req') := by
  intro L
  induction L with
  | nil =>
    intro acc id hnd hmem
    exact absurd hmem (List.not_mem_nil id)
  | cons rid rest ih =>
    intro acc id hnd hmem hv hnotin
    rw [List.foldl_cons]
    rw [List.nodup_cons] at hnd
    by_cases hid : id = rid
    · subst hid
      obtain ⟨v, hl⟩ := hv
      rcases custody_continue_step_present step hpres acc id v hl with
        ⟨res, hres1, hres2⟩ | ⟨hres1, req', hres2⟩
      · left
        obtain ⟨fl, fm⟩ := custody_fold_untouched step hpres rest
          (SyncNetworkContext.custody_continue_step step acc id) id res
          hnd.1
        refine ⟨⟨res, fm.mpr ?_⟩, ?_⟩
        · rw [hres1]
          exact List.mem_append_right _ (by simp)
        · rw [fl]
          exact hres2
      · right
        constructor
        · intro res hresmem
          obtain ⟨fl, fm⟩ := custody_fold_untouched step hpres rest
            (SyncNetworkContext.custody_continue_step step acc id) id res
            hnd.1
          have hin := fm.mp hresmem
          rw [hres1] at hin
          exact hnotin res hin
        · obtain ⟨fl, -⟩ := custody_fold_untouched step hpres rest
            (SyncNetworkContext.custody_continue_step step acc id) id
            (Except.ok ([], [])) hnd.1
          exact ⟨req', fl.trans hres2⟩
    · have hmem' : id ∈ rest := by
        rcases List.mem_cons.mp hmem with h | h
        · exact absurd h hid
        · exact h
      have hv' : ∃ v, alist_lookup (SyncNetworkContext.custody_continue_step
          step acc rid).2.custody_by_root_requests id = some v := by
        obtain ⟨v, hl⟩ := hv
        exact ⟨v, (custody_continue_step_lookup_ne step hpres acc rid id
          hid).trans hl⟩
      have hnotin' : ∀ r, (id, r) ∉
          (SyncNetworkContext.custody_continue_step step acc rid).1 := by
        intro r hmem2
        exact hnotin r ((custody_continue_step_results_ne step acc rid id r
          hid).mp hmem2)
      exact ih (SyncNetworkContext.custody_continue_step step acc rid) id
        hnd.2 hmem' hv' hnotin'

/-- C10: After any custody-by-root event
(`continue_custody_by_root_requests` or `on_custody_by_root_response`), an
active custody request is present in the `custody_by_root_requests` map if
and only if its result is still pending: a terminal `Ok`/`Err` result
removes the request, a still-in-progress request is re-inserted, so a
custody request is never lost while unresolved and never retained after
resolution. Quantified over the custody progress function `step`, which
does not itself touch the custody map. -/
theorem custody_request_tracked_iff_pending
    (step : SyncNetworkContext.CustodyStep) (s : SyncNetworkContext)
    (cid : CustodyId) (request : ActiveCustodyRequest)
    (hpres : ∀ req c, ((step req c).2.2).custody_by_root_requests =
      c.custody_by_root_requests) :
    (alist_lookup s.custody_by_root_requests cid.requester = some request →
      ((SyncNetworkContext.on_custody_by_root_response step s cid).1 =
          none →
        ∃ req', alist_lookup (SyncNetworkContext.on_custody_by_root_response
          step s cid).2.custody_by_root_requests cid.requester =
          some req') ∧
      (∀ res, (SyncNetworkContext.on_custody_by_root_response step s
          cid).1 = some res →
        alist_lookup (SyncNetworkContext.on_custody_by_root_response step s
          cid).2.custody_by_root_requests cid.requester = none)) ∧
    ((s.custody_by_root_requests.map Prod.fst).Nodup →
      ∀ id ∈ s.custody_by_root_requests.map Prod.fst,
        ((∃ res, (id, res) ∈
            (SyncNetworkContext.continue_custody_by_root_requests step
              s).1) ↔
          alist_lookup (SyncNetworkContext.continue_custody_by_root_requests
            step s).2.custody_by_root_requests id = none)) ∧
    (∀ id, alist_lookup s.custody_by_root_requests id = none →
      alist_lookup (SyncNetworkContext.continue_custody_by_root_requests
        step s).2.custody_by_root_requests id = none ∧
      ∀ res, (id, res) ∉
        (SyncNetworkContext.continue_custody_by_root_requests step s).1) := by
  refine ⟨?_, ?_, ?_⟩
  · intro hl
    rw [on_custody_by_root_response_some_eq step s cid request hl]
    unfold SyncNetworkContext.handle_custody_by_root_result
    cases hres : (step request { s with custody_by_root_requests := alist_remove s.custody_by_root_requests cid.requester }).1 with
    | ok o =>
      cases o with
      | some value =>
        constructor
        · intro h
          exact absurd h (by simp)
        · intro res hsome
          show alist_lookup (step request { s with
            custody_by_root_requests :=
              alist_remove s.custody_by_root_requests cid.requester
            }).2.2.custody_by_root_requests cid.requester = none
          rw [hpres]
          exact alist_lookup_remove_self _ _
      | none =>
        constructor
        · intro h
          exact ⟨_, alist_lookup_insert_self _ _ _⟩
        · intro res hsome
          exact Option.noConfusion hsome
    | error e =>
      constructor
      · intro h
        exact absurd h (by simp)
      · intro res hsome
        show alist_lookup (step request { s with
          custody_by_root_requests :=
            alist_remove s.custody_by_root_requests cid.requester
          }).2.2.custody_by_root_requests cid.requester = none
        rw [hpres]
        exact alist_lookup_remove_self _ _
  · intro hnd id hidmem
    have hv : ∃ v, alist_lookup s.custody_by_root_requests id = some v := by
      rw [List.mem_map] at hidmem
      obtain ⟨p, hp, hfst⟩ := hidmem
      cases hlv : alist_lookup s.custody_by_root_requests id with
      | some v => exact ⟨v, rfl⟩
      | none =>
        have hpm : (id, p.2) ∈ s.custody_by_root_requests := by
          rw [← hfst]
          exact hp
        exact absurd hpm ((alist_lookup_eq_none_iff _ _).mp hlv p.2)
    rcases custody_fold_processed step hpres
        (s.custody_by_root_requests.map Prod.fst) ([], s) id hnd hidmem hv
        (by simp) with ⟨⟨res, hm⟩, hnone⟩ | ⟨hnot, req', hsome⟩
    · constructor
      · intro _
        exact hnone
      · intro _
        exact ⟨res, hm⟩
    · constructor
      · rintro ⟨res, hm⟩
        exact absurd hm (hnot res)
      · intro hnone
        rw [show (SyncNetworkContext.continue_custody_by_root_requests step
          s) = ((s.custody_by_root_requests.map Prod.fst).foldl
            (SyncNetworkContext.custody_continue_step step) ([], s))
          from rfl] at hnone
        rw [hsome] at hnone
        exact Option.noConfusion hnone
  · intro id hlnone
    have hnotk : id ∉ s.custody_by_root_requests.map Prod.fst := by
      rw [List.mem_map]
      rintro ⟨p, hp, hfst⟩
      have hpm : (id, p.2) ∈ s.custody_by_root_requests := by
        rw [← hfst]
        exact hp
      exact (alist_lookup_eq_none_iff _ _).mp hlnone p.2 hpm
    constructor
    · obtain ⟨fl, -⟩ := custody_fold_untouched step hpres
        (s.custody_by_root_requests.map Prod.fst) ([], s) id
        (Except.ok ([], [])) hnotk
      exact fl.trans hlnone
    · intro res hm
      obtain ⟨-, fm⟩ := custody_fold_untouched step hpres
        (s.custody_by_root_requests.map Prod.fst) ([], s) id res hnotk
      exact absurd (fm.mp hm) (by simp)

/-- Witness for C10: with the trivial progress function on the fresh
context, an untracked custody id stays untracked after a continue sweep. -/
theorem custody_request_tracked_iff_pending_witness :
    alist_lookup (SyncNetworkContext.continue_custody_by_root_requests
      (fun req c => (Except.ok none, req, c))
      SyncNetworkContext.new).2.custody_by_root_requests
      { id := { lookup_id := 0, req_id := 0 } } = none :=
  ((custody_request_tracked_iff_pending
    (fun req c => (Except.ok none, req, c)) SyncNetworkContext.new
    { requester := { id := { lookup_id := 0, req_id := 0 } } }
    { block_root := 0, state := 0 }
    (fun _ _ => rfl)).2.2
    { id := { lookup_id := 0, req_id := 0 } } rfl).1

end Sync

